import Mathlib

/-!
Verification of the Heartopia-Image-Painter painting engine
(src/heartopia_painter/paint.py and config.py) against its specification.

The embedding models the pure control flow of the painter. Side effects are
made explicit:
* screen reads become an abstract sampler function (pass index and screen
  point to RGB); every (pass, point) pair is read at most once per scan, so
  a function argument is fully general;
* mouse taps become a trace (a list of tapped screen points); the source
  helper for strokes clicks every point of a run, so tap traces coincide for
  the tap and stroke branches;
* raised RuntimeErrors become an error field / Except values;
* timing knobs (floats fed to sleep) and observer callbacks (status, verify)
  are omitted: they never influence which taps are issued;
* the optional should_stop callback is modelled as absent (None in the
  source), matching the claims, which all assume no stop or pause signal;
* Python float expressions of the form int(a + b * (c / d)) are embedded as
  their exact rational value truncated toward zero, written with integer
  arithmetic (Int.tdiv), since the grid and rect sizes in scope keep the
  float computation exact enough that the claims target the exact value.
-/

/-- Absolute screen coordinate, as in paint.py (Point = Tuple[int, int]). -/
abbrev Point : Type := ℤ × ℤ

/-- RGB triple, as in paint.py (RGB = Tuple[int, int, int]). -/
abbrev RGB : Type := ℤ × ℤ × ℤ

/-- Canvas rectangle (x, y, width, height), as in config.py (Rect). -/
abbrev Rect : Type := ℤ × ℤ × ℤ × ℤ

/-- Grid cell coordinate (x, y) with 0 ≤ x < grid_w, 0 ≤ y < grid_h. -/
abbrev Coord : Type := ℕ × ℕ

/-- config.py ShadeButton: name, screen position, reference RGB. -/
structure ShadeButton where
  name : String
  pos : Point
  rgb : RGB
deriving DecidableEq, Repr

/-- config.py MainColor: name, button position, reference RGB, ordered shades. -/
structure MainColor where
  name : String
  pos : Point
  rgb : RGB
  shades : List ShadeButton
deriving DecidableEq, Repr

/-- config.py AppConfig, restricted to the fields read by paint.py.
Timing floats are omitted (they only feed sleep calls). Integer-valued knobs
keep Python int semantics (ℤ). -/
structure AppConfig where
  verify_rows : Bool := true
  verify_tolerance : ℤ := 35
  verify_max_passes : ℤ := 10
  bucket_fill_enabled : Bool := false
  bucket_fill_min_cells : ℤ := 50
  bucket_fill_regions_enabled : Bool := false
  bucket_fill_regions_min_cells : ℤ := 200
  shades_panel_button_pos : Option Point := none
  back_button_pos : Option Point := none
  paint_tool_button_pos : Option Point := none
  bucket_tool_button_pos : Option Point := none
  main_colors : List MainColor := []
deriving DecidableEq, Repr

/-- paint.py PainterOptions, restricted to the one field that changes the
control flow. The drag/stroke branch uses _rapid_click_stroke, which clicks
every point of the run, so the tap trace is a list of points either way. -/
structure PainterOptions where
  enable_drag_strokes : Bool := false
deriving DecidableEq, Repr

/-- paint.py _dist2 (and the identical local dist2 inside _find_best_match):
squared Euclidean RGB distance. -/
def dist2 (a b : RGB) : ℤ :=
  (a.1 - b.1) ^ 2 + (a.2.1 - b.2.1) ^ 2 + (a.2.2 - b.2.2) ^ 2

/-- The palette flattened in traversal order of _find_best_match:
main colors in list order, shades in list order within each main color. -/
def allShadePairs (cfg : AppConfig) : List (MainColor × ShadeButton) :=
  cfg.main_colors.flatMap (fun mc => mc.shades.map (fun sh => (mc, sh)))

/-- Loop body of _find_best_match: best / best_dist accumulate over the
flattened palette; a candidate replaces the best only on strictly smaller
distance, so the first-encountered among equals wins. -/
def findBestMatchGo (rgb : RGB) :
    List (MainColor × ShadeButton) → Option (MainColor × ShadeButton) → Option ℤ →
    Option (MainColor × ShadeButton)
  | [], best, _ => best
  | (mc, sh) :: rest, best, bestDist =>
    let d := dist2 rgb sh.rgb
    match bestDist with
    | none => findBestMatchGo rgb rest (some (mc, sh)) (some d)
    | some bd =>
      if d < bd then findBestMatchGo rgb rest (some (mc, sh)) (some d)
      else findBestMatchGo rgb rest best (some bd)

/-- paint.py _find_best_match: closest shade across all colors. -/
def find_best_match (rgb : RGB) (cfg : AppConfig) : Option (MainColor × ShadeButton) :=
  findBestMatchGo rgb (allShadePairs cfg) none none

lemma findBestMatchGo_isSome (rgb : RGB) (pairs : List (MainColor × ShadeButton))
    (b : MainColor × ShadeButton) (d : ℤ) :
    ∃ r, findBestMatchGo rgb pairs (some b) (some d) = some r := by
  induction pairs generalizing b d with
  | nil => exact ⟨b, rfl⟩
  | cons p rest ih =>
    obtain ⟨mc, sh⟩ := p
    simp only [findBestMatchGo]
    split
    · exact ih _ _
    · exact ih _ _

/-- Invariant of the _find_best_match loop: starting from best b with its own
distance, the result is b (and nothing in the remaining pairs is strictly
better), or some later pair that strictly beats b and everything before it,
and is not beaten weakly by anything after it. -/
lemma findBestMatchGo_spec (rgb : RGB) (pairs : List (MainColor × ShadeButton))
    (b r : MainColor × ShadeButton)
    (h : findBestMatchGo rgb pairs (some b) (some (dist2 rgb b.2.rgb)) = some r) :
    (r = b ∧ ∀ p ∈ pairs, dist2 rgb b.2.rgb ≤ dist2 rgb p.2.rgb) ∨
    (∃ l₁ l₂, pairs = l₁ ++ r :: l₂ ∧
      dist2 rgb r.2.rgb < dist2 rgb b.2.rgb ∧
      (∀ p ∈ l₁, dist2 rgb r.2.rgb < dist2 rgb p.2.rgb) ∧
      (∀ p ∈ l₂, dist2 rgb r.2.rgb ≤ dist2 rgb p.2.rgb)) := by
  induction pairs generalizing b with
  | nil =>
    left
    simp only [findBestMatchGo, Option.some.injEq] at h
    exact ⟨h.symm, by simp⟩
  | cons p rest ih =>
    obtain ⟨mc, sh⟩ := p
    simp only [findBestMatchGo] at h
    by_cases hd : dist2 rgb sh.rgb < dist2 rgb b.2.rgb
    · rw [if_pos hd] at h
      rcases ih (mc, sh) h with ⟨hr, hall⟩ | ⟨l₁, l₂, heq, hlt, hl₁, hl₂⟩
      · right
        refine ⟨[], rest, by simp [hr], ?_, by simp, ?_⟩
        · rw [hr]; exact hd
        · rw [hr]; exact hall
      · right
        refine ⟨(mc, sh) :: l₁, l₂, by simp [heq], lt_trans hlt hd, ?_, hl₂⟩
        intro q hq
        rcases List.mem_cons.mp hq with hq | hq
        · rw [hq]; exact hlt
        · exact hl₁ q hq
    · rw [if_neg hd] at h
      push_neg at hd
      rcases ih b h with ⟨hr, hall⟩ | ⟨l₁, l₂, heq, hlt, hl₁, hl₂⟩
      · left
        refine ⟨hr, ?_⟩
        intro q hq
        rcases List.mem_cons.mp hq with hq | hq
        · rw [hq]; exact hd
        · exact hall q hq
      · right
        refine ⟨(mc, sh) :: l₁, l₂, by simp [heq], hlt, ?_, hl₂⟩
        intro q hq
        rcases List.mem_cons.mp hq with hq | hq
        · rw [hq]; exact lt_of_lt_of_le hlt hd
        · exact hl₁ q hq

lemma find_best_match_eq_none_iff (rgb : RGB) (cfg : AppConfig) :
    find_best_match rgb cfg = none ↔ allShadePairs cfg = [] := by
  unfold find_best_match
  cases hp : allShadePairs cfg with
  | nil => simp [findBestMatchGo]
  | cons p rest =>
    obtain ⟨mc, sh⟩ := p
    simp only [findBestMatchGo]
    obtain ⟨r, hr⟩ := findBestMatchGo_isSome rgb rest (mc, sh) (dist2 rgb sh.rgb)
    rw [hr]
    simp

lemma find_best_match_split (rgb : RGB) (cfg : AppConfig) (r : MainColor × ShadeButton)
    (h : find_best_match rgb cfg = some r) :
    ∃ l₁ l₂, allShadePairs cfg = l₁ ++ r :: l₂ ∧
      (∀ p ∈ l₁, dist2 rgb r.2.rgb < dist2 rgb p.2.rgb) ∧
      (∀ p ∈ l₂, dist2 rgb r.2.rgb ≤ dist2 rgb p.2.rgb) := by
  unfold find_best_match at h
  cases hp : allShadePairs cfg with
  | nil => rw [hp] at h; simp [findBestMatchGo] at h
  | cons p rest =>
    obtain ⟨mc, sh⟩ := p
    rw [hp] at h
    simp only [findBestMatchGo] at h
    rcases findBestMatchGo_spec rgb rest (mc, sh) r h with ⟨hr, hall⟩ | ⟨l₁, l₂, heq, hlt, hl₁, hl₂⟩
    · exact ⟨[], rest, by simp [hr], by simp, by rw [hr]; exact hall⟩
    · refine ⟨(mc, sh) :: l₁, l₂, by simp [heq], ?_, hl₂⟩
      intro q hq
      rcases List.mem_cons.mp hq with hq | hq
      · rw [hq]; exact hlt
      · exact hl₁ q hq

lemma find_best_match_min (rgb : RGB) (cfg : AppConfig) (r : MainColor × ShadeButton)
    (h : find_best_match rgb cfg = some r) :
    ∀ p ∈ allShadePairs cfg, dist2 rgb r.2.rgb ≤ dist2 rgb p.2.rgb := by
  obtain ⟨l₁, l₂, heq, hl₁, hl₂⟩ := find_best_match_split rgb cfg r h
  intro p hp
  rw [heq] at hp
  rcases List.mem_append.mp hp with hp | hp
  · exact le_of_lt (hl₁ p hp)
  · rcases List.mem_cons.mp hp with hp | hp
    · rw [hp]
    · exact hl₂ p hp

lemma allShadePairs_eq_nil_iff (cfg : AppConfig) :
    allShadePairs cfg = [] ↔ ∀ mc ∈ cfg.main_colors, mc.shades = [] := by
  unfold allShadePairs
  induction cfg.main_colors with
  | nil => simp
  | cons mc rest ih =>
    simp only [List.flatMap_cons, List.append_eq_nil, List.map_eq_nil_iff, List.mem_cons]
    constructor
    · rintro ⟨h1, h2⟩ m hm
      rcases hm with hm | hm
      · rw [hm]; exact h1
      · exact (ih.mp h2) m hm
    · intro h
      exact ⟨h mc (Or.inl rfl), ih.mpr fun m hm => h m (Or.inr hm)⟩

/-- C2: the color matcher returns a pair minimizing squared Euclidean RGB
distance over all shades of all main colors; among ties the first-encountered
pair in palette order wins (everything strictly earlier in palette order is
strictly farther); and it returns none exactly when the palette has zero
shades. -/
theorem matcher_returns_closest_first (rgb : RGB) (cfg : AppConfig) :
    (find_best_match rgb cfg = none ↔ ∀ mc ∈ cfg.main_colors, mc.shades = []) ∧
    (∀ r, find_best_match rgb cfg = some r →
      (∀ p ∈ allShadePairs cfg, dist2 rgb r.2.rgb ≤ dist2 rgb p.2.rgb) ∧
      ∃ l₁ l₂, allShadePairs cfg = l₁ ++ r :: l₂ ∧
        ∀ p ∈ l₁, dist2 rgb r.2.rgb < dist2 rgb p.2.rgb) := by
  constructor
  · rw [find_best_match_eq_none_iff]
    exact allShadePairs_eq_nil_iff cfg
  · intro r hr
    refine ⟨find_best_match_min rgb cfg r hr, ?_⟩
    obtain ⟨l₁, l₂, heq, hl₁, _⟩ := find_best_match_split rgb cfg r hr
    exact ⟨l₁, l₂, heq, hl₁⟩

/-- Witness palette for concrete evaluations: two main colors, three shades. -/
def wShadeR1 : ShadeButton := ⟨"R1", (100, 200), (255, 0, 0)⟩

def wMain1 : MainColor :=
  { name := "Red", pos := (300, 400), rgb := (200, 0, 0),
    shades := [wShadeR1, ⟨"R2", (100, 240), (128, 0, 0)⟩] }

def wMain2 : MainColor :=
  { name := "Blue", pos := (300, 440), rgb := (0, 0, 200),
    shades := [⟨"B1", (100, 280), (0, 0, 255)⟩] }

def wCfg : AppConfig :=
  { shades_panel_button_pos := some (10, 10), back_button_pos := some (20, 20),
    main_colors := [wMain1, wMain2] }

/-- Witness for C2: at a concrete RGB and palette the matcher picks the red
shade R1, no other shade is strictly closer, and everything before it in
palette order (nothing) is strictly farther. -/
theorem matcher_returns_closest_first_witness :
    (∀ p ∈ allShadePairs wCfg,
      dist2 (250, 10, 10) (wMain1, wShadeR1).2.rgb ≤ dist2 (250, 10, 10) p.2.rgb) ∧
    ∃ l₁ l₂, allShadePairs wCfg = l₁ ++ (wMain1, wShadeR1) :: l₂ ∧
      ∀ p ∈ l₁,
        dist2 (250, 10, 10) (wMain1, wShadeR1).2.rgb < dist2 (250, 10, 10) p.2.rgb :=
  (matcher_returns_closest_first (250, 10, 10) wCfg).2 (wMain1, wShadeR1) (by decide)

/-- The per-run match cache (a Python dict keyed by RGB) modelled as an
association list; lookup returns the stored value for the first matching key. -/
def cacheLookup {α : Type} : List (RGB × α) → RGB → Option α
  | [], _ => none
  | (k, v) :: rest, r => if k = r then some v else cacheLookup rest r

/-- paint.py get_match (the closure inside paint_grid and inside
_paint_grid_by_color): consult the cache, else compute _find_best_match and
store the result. Returns the match and the updated cache. -/
def get_match (cfg : AppConfig) (cache : List (RGB × Option (MainColor × ShadeButton)))
    (rgb : RGB) :
    Option (MainColor × ShadeButton) × List (RGB × Option (MainColor × ShadeButton)) :=
  match cacheLookup cache rgb with
  | some m => (m, cache)
  | none =>
    let m := find_best_match rgb cfg
    (m, (rgb, m) :: cache)

/-- A run of the memoized matcher over a sequence of RGB queries, threading
the cache. -/
def runMatches (cfg : AppConfig) (cache : List (RGB × Option (MainColor × ShadeButton))) :
    List RGB → List (Option (MainColor × ShadeButton))
  | [] => []
  | r :: rest =>
    let (m, cache2) := get_match cfg cache r
    m :: runMatches cfg cache2 rest

/-- Cache coherence: every stored entry equals the direct matcher result. -/
def CacheOK (cfg : AppConfig) (cache : List (RGB × Option (MainColor × ShadeButton))) : Prop :=
  ∀ k v, cacheLookup cache k = some v → v = find_best_match k cfg

lemma get_match_of_cacheOK (cfg : AppConfig) (cache : List (RGB × Option (MainColor × ShadeButton)))
    (rgb : RGB) (hc : CacheOK cfg cache) :
    (get_match cfg cache rgb).1 = find_best_match rgb cfg ∧
      CacheOK cfg (get_match cfg cache rgb).2 := by
  unfold get_match
  cases hl : cacheLookup cache rgb with
  | none =>
    refine ⟨rfl, ?_⟩
    intro k v hk
    simp only [cacheLookup] at hk
    split at hk
    · rename_i hkr
      rw [← hkr]
      simpa using hk.symm
    · exact hc k v hk
  | some m => exact ⟨hc rgb m hl, hc⟩

lemma runMatches_of_cacheOK (cfg : AppConfig) (qs : List RGB)
    (cache : List (RGB × Option (MainColor × ShadeButton))) (hc : CacheOK cfg cache) :
    runMatches cfg cache qs = qs.map (fun r => find_best_match r cfg) := by
  induction qs generalizing cache with
  | nil => rfl
  | cons r rest ih =>
    obtain ⟨h1, h2⟩ := get_match_of_cacheOK cfg cache r hc
    simp only [runMatches, List.map_cons]
    exact congrArg₂ _ h1 (ih _ h2)

/-- C3: the memoized matcher is purely an optimization: starting from the
empty per-run cache, every query of any query sequence receives exactly the
result of the non-memoized matcher. -/
theorem memoized_matcher_transparent (cfg : AppConfig) (qs : List RGB) :
    runMatches cfg [] qs = qs.map (fun r => find_best_match r cfg) :=
  runMatches_of_cacheOK cfg qs [] (by intro k v hk; simp [cacheLookup] at hk)

/-- paint.py _cell_center. The source computes
cx = int(x0 + (x + 0.5) * (w / grid_w)) with float division; the embedding
takes the exact rational value truncated toward zero (the Python int()):
(2 * x0 * gw + (2 * x + 1) * w) / (2 * gw) with truncating integer division. -/
def cell_center (canvas_rect : Rect) (grid_w grid_h : ℕ) (x y : ℕ) : Point :=
  let (x0, y0, w, h) := canvas_rect
  ((2 * x0 * grid_w + (2 * (x : ℤ) + 1) * w).tdiv (2 * grid_w),
   (2 * y0 * grid_h + (2 * (y : ℤ) + 1) * h).tdiv (2 * grid_h))

lemma tdiv_bounds (x0 w g xi : ℤ) (hx0 : 0 ≤ x0) (hw : 0 < w) (hg : 0 < g)
    (hxi0 : 0 ≤ xi) (hxig : xi < g) :
    x0 ≤ (2 * x0 * g + (2 * xi + 1) * w).tdiv (2 * g) ∧
      (2 * x0 * g + (2 * xi + 1) * w).tdiv (2 * g) < x0 + w := by
  have hg2 : (0 : ℤ) < 2 * g := by linarith
  have hnum : (0 : ℤ) ≤ 2 * x0 * g + (2 * xi + 1) * w := by nlinarith
  rw [Int.tdiv_eq_ediv hnum (le_of_lt hg2)]
  constructor
  · rw [Int.le_ediv_iff_mul_le hg2]
    nlinarith
  · rw [Int.ediv_lt_iff_lt_mul hg2]
    nlinarith

/-- C10: for a canvas rect with nonnegative origin and positive size, and a
cell coordinate inside the grid, the screen point computed by _cell_center
lies inside the canvas rectangle, so every paint click and verification
sample aimed at a cell center lands within the selected canvas rect. -/
theorem cell_center_inside_rect (x0 y0 w h : ℤ) (grid_w grid_h x y : ℕ)
    (hx0 : 0 ≤ x0) (hy0 : 0 ≤ y0) (hw : 0 < w) (hh : 0 < h)
    (hgw : 0 < grid_w) (hgh : 0 < grid_h) (hx : x < grid_w) (hy : y < grid_h) :
    x0 ≤ (cell_center (x0, y0, w, h) grid_w grid_h x y).1 ∧
    (cell_center (x0, y0, w, h) grid_w grid_h x y).1 < x0 + w ∧
    y0 ≤ (cell_center (x0, y0, w, h) grid_w grid_h x y).2 ∧
    (cell_center (x0, y0, w, h) grid_w grid_h x y).2 < y0 + h := by
  have hgwz : (0 : ℤ) < (grid_w : ℤ) := by exact_mod_cast hgw
  have hghz : (0 : ℤ) < (grid_h : ℤ) := by exact_mod_cast hgh
  have hxz : ((x : ℤ)) < (grid_w : ℤ) := by exact_mod_cast hx
  have hyz : ((y : ℤ)) < (grid_h : ℤ) := by exact_mod_cast hy
  have h1 := tdiv_bounds x0 w (grid_w : ℤ) (x : ℤ) hx0 hw hgwz (by positivity) hxz
  have h2 := tdiv_bounds y0 h (grid_h : ℤ) (y : ℤ) hy0 hh hghz (by positivity) hyz
  exact ⟨h1.1, h1.2, h2.1, h2.2⟩

/-- Witness for C10: a concrete cell center lands inside a concrete rect. -/
theorem cell_center_inside_rect_witness :
    (5 : ℤ) ≤ (cell_center (5, 7, 100, 90) 30 30 29 0).1 ∧
    (cell_center (5, 7, 100, 90) 30 30 29 0).1 < 5 + 100 ∧
    (7 : ℤ) ≤ (cell_center (5, 7, 100, 90) 30 30 29 0).2 ∧
    (cell_center (5, 7, 100, 90) 30 30 29 0).2 < 7 + 90 :=
  cell_center_inside_rect 5 7 100 90 30 30 29 0 (by decide) (by decide) (by decide)
    (by decide) (by decide) (by decide) (by decide) (by decide)

/-- Lexicographic comparison of char lists by code point, mirroring Python
string comparison in sort keys. -/
def strLtChars : List Char → List Char → Bool
  | [], [] => false
  | [], _ :: _ => true
  | _ :: _, [] => false
  | a :: as, b :: bs =>
    if a.val < b.val then true else if b.val < a.val then false else strLtChars as bs

def strLt (a b : String) : Bool := strLtChars a.data b.data

/-- Stable insertion into a sorted list: x goes before the first element that
is not strictly below it, so elements comparing equal keep their order
(matching Python sorted, which is stable). -/
def insertByLt {α : Type} (lt : α → α → Bool) (x : α) : List α → List α
  | [] => [x]
  | y :: ys => if lt y x then y :: insertByLt lt x ys else x :: y :: ys

def sortByLt {α : Type} (lt : α → α → Bool) : List α → List α
  | [] => []
  | x :: xs => insertByLt lt x (sortByLt lt xs)

/-- Coordinate order (y, x), the sort key used throughout paint.py. -/
def coordLt (a b : Coord) : Bool :=
  if a.2 < b.2 then true else if b.2 < a.2 then false else a.1 < b.1

/-- The palette-navigation state threaded by the painter:
last selected main color, last selected shade, and whether the internal
state believes the shades panel is open. -/
structure SelState where
  last_main : Option MainColor
  last_shade : Option ShadeButton
  in_shades_panel : Bool
deriving DecidableEq, Repr

/-- paint.py _select_shade. Raises when the navigation buttons are unset.
When the main color changes, taps back (unconditionally if a main was
selected before, else only if the panel is believed open), then the main
button, then the shades-panel button. Re-taps the panel button defensively
if the panel is believed closed. When the target shade differs from the last
selected one, taps the shade button twice (deliberate double-tap). -/
def select_shade (cfg : AppConfig) (main : MainColor) (shade : ShadeButton)
    (st : SelState) : Except String (SelState × List Point) :=
  match cfg.shades_panel_button_pos, cfg.back_button_pos with
  | some panelPos, some backPos =>
    let mainDiffers : Bool :=
      match st.last_main with
      | none => true
      | some lm => decide (main.name ≠ lm.name)
    let step1 : SelState × List Point :=
      if mainDiffers then
        let backTaps : List Point :=
          match st.last_main with
          | some _ => [backPos]
          | none => if st.in_shades_panel then [backPos] else []
        (⟨some main, none, true⟩, backTaps ++ [main.pos, panelPos])
      else (st, [])
    let st1 := step1.1
    let step2 : SelState × List Point :=
      if st1.in_shades_panel then (st1, [])
      else ({ st1 with in_shades_panel := true }, [panelPos])
    let st2 := step2.1
    let shadeDiffers : Bool :=
      match st2.last_shade with
      | none => true
      | some ls => decide (shade.pos ≠ ls.pos)
    let step3 : SelState × List Point :=
      if shadeDiffers then ({ st2 with last_shade := some shade }, [shade.pos, shade.pos])
      else (st2, [])
    .ok (step3.1, step1.2 ++ step2.2 ++ step3.2)
  | _, _ =>
    .error "Color configuration incomplete. Set shades panel + back button positions first."

/-- Outcome of a verify-and-repair call: the tap trace, the progress
callbacks emitted (one coordinate per repainted cell), the number of scan
passes executed, and the raised error if any. -/
structure VerifyResult where
  taps : List Point
  progress : List Coord
  passes : ℕ
  error : Option String
deriving DecidableEq, Repr

/-- tol2 = max(0, tol) ** 2 as computed by every verify loop in paint.py:
the configured tolerance is squared before being compared with squared
distances. -/
def verifyTol2 (cfg : AppConfig) : ℤ := (max 0 cfg.verify_tolerance) ^ 2

/-- max_passes = max(1, cfg.verify_max_passes). -/
def verifyMaxPasses (cfg : AppConfig) : ℕ := (max 1 cfg.verify_max_passes).toNat

lemma verifyMaxPasses_pos (cfg : AppConfig) : 0 < verifyMaxPasses cfg := by
  unfold verifyMaxPasses
  have : (1 : ℤ) ≤ max 1 cfg.verify_max_passes := le_max_left _ _
  omega

lemma verifyTol2_nonneg (cfg : AppConfig) : 0 ≤ verifyTol2 cfg := sq_nonneg _

/-- Mismatch groups of one row-verify pass, keyed like the Python dict by
(main.name, shade.pos), in insertion order. -/
abbrev RowGroups : Type := List ((String × Point) × MainColor × ShadeButton × List ℕ)

/-- Insert a mismatching x into its group, appending a new group at the end
on first occurrence (Python dicts preserve insertion order). -/
def insertRowGroup (gs : RowGroups) (main : MainColor) (shade : ShadeButton) (x : ℕ) :
    RowGroups :=
  match gs with
  | [] => [((main.name, shade.pos), main, shade, [x])]
  | (k, m, s, xs) :: rest =>
    if k = (main.name, shade.pos) then (k, m, s, xs ++ [x]) :: rest
    else (k, m, s, xs) :: insertRowGroup rest main shade x

/-- Mismatch collection of one pass of _verify_and_repair_row: a cell with an
expected shade is a mismatch when the sampled pixel at its cell center is
farther than tol2 in squared distance from the shade reference RGB. -/
def collectRowGroups (canvas_rect : Rect) (grid_w grid_h y : ℕ)
    (row_expected : List (Option (MainColor × ShadeButton))) (tol2 : ℤ)
    (sampleP : Point → RGB) : List ℕ → RowGroups → RowGroups
  | [], gs => gs
  | x :: rest, gs =>
    match row_expected.getD x none with
    | none => collectRowGroups canvas_rect grid_w grid_h y row_expected tol2 sampleP rest gs
    | some (main, shade) =>
      if dist2 (sampleP (cell_center canvas_rect grid_w grid_h x y)) shade.rgb ≤ tol2 then
        collectRowGroups canvas_rect grid_w grid_h y row_expected tol2 sampleP rest gs
      else
        collectRowGroups canvas_rect grid_w grid_h y row_expected tol2 sampleP rest
          (insertRowGroup gs main shade x)

/-- The mismatch groups computed by pass p of _verify_and_repair_row. -/
def rowPassGroups (cfg : AppConfig) (canvas_rect : Rect) (grid_w grid_h y : ℕ)
    (row_expected : List (Option (MainColor × ShadeButton)))
    (sample : ℕ → Point → RGB) (p : ℕ) : RowGroups :=
  collectRowGroups canvas_rect grid_w grid_h y row_expected (verifyTol2 cfg)
    (sample p) (List.range grid_w) []

/-- Repaint ordering of _verify_and_repair_row and both schedulers:
most-used group first, ties by main name then shade position. -/
def rowGroupLt (a b : (String × Point) × MainColor × ShadeButton × List ℕ) : Bool :=
  if b.2.2.2.length < a.2.2.2.length then true
  else if a.2.2.2.length < b.2.2.2.length then false
  else if strLt a.2.1.name b.2.1.name then true
  else if strLt b.2.1.name a.2.1.name then false
  else if a.2.2.1.pos.1 < b.2.2.1.pos.1 then true
  else if b.2.2.1.pos.1 < a.2.2.1.pos.1 then false
  else a.2.2.1.pos.2 < b.2.2.1.pos.2

/-- Split a sorted list of x positions into maximal runs of consecutive
cells, as the repaint loop of _verify_and_repair_row does. -/
def splitRunsNat : List ℕ → List (List ℕ)
  | [] => []
  | x :: xs =>
    match splitRunsNat xs with
    | [] => [[x]]
    | [] :: rest => [x] :: [] :: rest
    | (z :: r) :: rest =>
      if z = x + 1 then (x :: z :: r) :: rest else [x] :: (z :: r) :: rest

/-- Taps and progress of repainting one row group (the shade is already
selected). The drag-stroke branch uses _rapid_click_stroke, which clicks
every point of the run, so both branches yield the same trace. -/
def repaintRowGroup (canvas_rect : Rect) (grid_w grid_h y : ℕ) (xs : List ℕ) :
    List Point × List Coord :=
  let runs := splitRunsNat (sortByLt (fun a b : ℕ => a < b) xs)
  (runs.flatMap (fun run => run.map (fun rx => cell_center canvas_rect grid_w grid_h rx y)),
   runs.flatMap (fun run => run.map (fun rx => (rx, y))))

/-- The repaint phase of one row-verify pass: for each group in repaint
order, select the shade (threading the palette-navigation state) and repaint
its cells. -/
def repaintRowGroups (cfg : AppConfig) (canvas_rect : Rect) (grid_w grid_h y : ℕ)
    (st : SelState) :
    RowGroups → Except String (SelState × List Point × List Coord)
  | [] => .ok (st, [], [])
  | (_, main, shade, xs) :: rest =>
    match select_shade cfg main shade st with
    | .error e => .error e
    | .ok (st1, selTaps) =>
      let rp := repaintRowGroup canvas_rect grid_w grid_h y xs
      match repaintRowGroups cfg canvas_rect grid_w grid_h y st1 rest with
      | .error e => .error e
      | .ok (st2, taps2, prog2) =>
        .ok (st2, selTaps ++ rp.1 ++ taps2, rp.2 ++ prog2)

/-- The pass loop of _verify_and_repair_row: scan, return when no mismatch,
else repaint (palette state reset each pass) and close the panel, up to the
remaining fuel; raise when fuel runs out. -/
def rowVerifyGo (cfg : AppConfig) (canvas_rect : Rect) (grid_w grid_h y : ℕ)
    (row_expected : List (Option (MainColor × ShadeButton)))
    (sample : ℕ → Point → RGB) : ℕ → ℕ → VerifyResult
  | _, 0 =>
    { taps := [], progress := [], passes := 0,
      error := some "Row verification failed. Try increasing Verify tolerance or timing, or disable verification." }
  | passIdx, fuel + 1 =>
    match rowPassGroups cfg canvas_rect grid_w grid_h y row_expected sample passIdx with
    | [] => { taps := [], progress := [], passes := 1, error := none }
    | g :: gs =>
      match repaintRowGroups cfg canvas_rect grid_w grid_h y ⟨none, none, false⟩
          (sortByLt rowGroupLt (g :: gs)) with
      | .error e => { taps := [], progress := [], passes := 1, error := some e }
      | .ok (st, taps, prog) =>
        let backTaps : List Point :=
          if st.in_shades_panel then
            match cfg.back_button_pos with
            | some b => [b]
            | none => []
          else []
        let r2 := rowVerifyGo cfg canvas_rect grid_w grid_h y row_expected sample
          (passIdx + 1) fuel
        { taps := taps ++ backTaps ++ r2.taps, progress := prog ++ r2.progress,
          passes := r2.passes + 1, error := r2.error }

/-- paint.py _verify_and_repair_row. -/
def verify_and_repair_row (cfg : AppConfig) (canvas_rect : Rect) (grid_w grid_h y : ℕ)
    (row_expected : List (Option (MainColor × ShadeButton)))
    (sample : ℕ → Point → RGB) : VerifyResult :=
  if cfg.verify_rows then
    rowVerifyGo cfg canvas_rect grid_w grid_h y row_expected sample 0 (verifyMaxPasses cfg)
  else { taps := [], progress := [], passes := 0, error := none }

/-- Mismatch collection of one pass of _verify_and_repair_color_group. -/
def collectColorMismatches (canvas_rect : Rect) (grid_w grid_h : ℕ) (shadeRgb : RGB)
    (tol2 : ℤ) (sampleP : Point → RGB) : List Coord → List Coord
  | [] => []
  | c :: rest =>
    if dist2 (sampleP (cell_center canvas_rect grid_w grid_h c.1 c.2)) shadeRgb > tol2 then
      c :: collectColorMismatches canvas_rect grid_w grid_h shadeRgb tol2 sampleP rest
    else collectColorMismatches canvas_rect grid_w grid_h shadeRgb tol2 sampleP rest

/-- The mismatches computed by pass p of _verify_and_repair_color_group,
over the (y, x)-sorted coordinate list. -/
def colorPassMismatches (cfg : AppConfig) (canvas_rect : Rect) (grid_w grid_h : ℕ)
    (shade : ShadeButton) (coords_sorted : List Coord)
    (sample : ℕ → Point → RGB) (p : ℕ) : List Coord :=
  collectColorMismatches canvas_rect grid_w grid_h shade.rgb (verifyTol2 cfg)
    (sample p) coords_sorted

/-- Split a (y, x)-sorted coordinate list into maximal same-row consecutive
runs, as _verify_and_repair_color_group and _paint_coord_runs do. -/
def splitRunsCoord : List Coord → List (List Coord)
  | [] => []
  | c :: cs =>
    match splitRunsCoord cs with
    | [] => [[c]]
    | [] :: rest => [c] :: [] :: rest
    | (d :: r) :: rest =>
      if d.2 = c.2 ∧ d.1 = c.1 + 1 then (c :: d :: r) :: rest
      else [c] :: (d :: r) :: rest

/-- The pass loop of _verify_and_repair_color_group: scan, return when no
mismatch, else force a full reselect from scratch and repaint the
mismatching cells in same-row runs; raise when fuel runs out. -/
def colorVerifyGo (cfg : AppConfig) (canvas_rect : Rect) (grid_w grid_h : ℕ)
    (main : MainColor) (shade : ShadeButton) (coords_sorted : List Coord)
    (sample : ℕ → Point → RGB) : ℕ → ℕ → VerifyResult
  | _, 0 =>
    { taps := [], progress := [], passes := 0,
      error := some "Color verification failed for a shade group. Try increasing Verify tolerance or timing, or disable verification." }
  | passIdx, fuel + 1 =>
    match colorPassMismatches cfg canvas_rect grid_w grid_h shade coords_sorted sample passIdx with
    | [] => { taps := [], progress := [], passes := 1, error := none }
    | m :: ms =>
      match select_shade cfg main shade ⟨none, none, false⟩ with
      | .error e => { taps := [], progress := [], passes := 1, error := some e }
      | .ok (_, selTaps) =>
        let runs := splitRunsCoord (sortByLt coordLt (m :: ms))
        let runTaps := runs.flatMap
          (fun run => run.map (fun c => cell_center canvas_rect grid_w grid_h c.1 c.2))
        let runProg := runs.flatMap id
        let r2 := colorVerifyGo cfg canvas_rect grid_w grid_h main shade coords_sorted sample
          (passIdx + 1) fuel
        { taps := selTaps ++ runTaps ++ r2.taps, progress := runProg ++ r2.progress,
          passes := r2.passes + 1, error := r2.error }

/-- paint.py _verify_and_repair_color_group. -/
def verify_and_repair_color_group (cfg : AppConfig) (canvas_rect : Rect)
    (grid_w grid_h : ℕ) (main : MainColor) (shade : ShadeButton) (coords : List Coord)
    (sample : ℕ → Point → RGB) : VerifyResult :=
  if cfg.verify_rows then
    colorVerifyGo cfg canvas_rect grid_w grid_h main shade (sortByLt coordLt coords)
      sample 0 (verifyMaxPasses cfg)
  else { taps := [], progress := [], passes := 0, error := none }

lemma dist2_self (a : RGB) : dist2 a a = 0 := by simp [dist2]

lemma mem_insertByLt {α : Type} (lt : α → α → Bool) (x a : α) (l : List α) :
    a ∈ insertByLt lt x l ↔ a = x ∨ a ∈ l := by
  induction l with
  | nil => simp [insertByLt]
  | cons y ys ih =>
    simp only [insertByLt]
    split
    all_goals simp only [List.mem_cons, ih]
    all_goals tauto

lemma mem_sortByLt {α : Type} (lt : α → α → Bool) (a : α) (l : List α) :
    a ∈ sortByLt lt l ↔ a ∈ l := by
  induction l with
  | nil => simp [sortByLt]
  | cons x xs ih => simp [sortByLt, mem_insertByLt, ih]

lemma collectRowGroups_of_accepted (canvas_rect : Rect) (grid_w grid_h y : ℕ)
    (row_expected : List (Option (MainColor × ShadeButton))) (tol2 : ℤ)
    (sampleP : Point → RGB) (xs : List ℕ) (gs : RowGroups)
    (h : ∀ x ∈ xs, ∀ main shade, row_expected.getD x none = some (main, shade) →
      dist2 (sampleP (cell_center canvas_rect grid_w grid_h x y)) shade.rgb ≤ tol2) :
    collectRowGroups canvas_rect grid_w grid_h y row_expected tol2 sampleP xs gs = gs := by
  induction xs generalizing gs with
  | nil => rfl
  | cons x rest ih =>
    simp only [collectRowGroups]
    split
    · exact ih gs fun z hz => h z (List.mem_cons_of_mem _ hz)
    · rename_i main shade heq
      rw [if_pos (h x (List.mem_cons_self x rest) main shade heq)]
      exact ih gs fun z hz => h z (List.mem_cons_of_mem _ hz)

lemma collectColorMismatches_of_accepted (canvas_rect : Rect) (grid_w grid_h : ℕ)
    (shadeRgb : RGB) (tol2 : ℤ) (sampleP : Point → RGB) (coords : List Coord)
    (h : ∀ c ∈ coords,
      dist2 (sampleP (cell_center canvas_rect grid_w grid_h c.1 c.2)) shadeRgb ≤ tol2) :
    collectColorMismatches canvas_rect grid_w grid_h shadeRgb tol2 sampleP coords = [] := by
  induction coords with
  | nil => rfl
  | cons c rest ih =>
    simp only [collectColorMismatches]
    rw [if_neg (by simpa using h c (List.mem_cons_self c rest))]
    exact ih fun z hz => h z (List.mem_cons_of_mem _ hz)

/-- C4: if sampling every cell of the batch on the first pass yields exactly
the expected shade RGB, both verify-and-repair loops issue zero repaint taps
and zero progress events, converge after the first pass, and raise no
error. -/
theorem verify_loop_idempotent :
    (∀ (cfg : AppConfig) (canvas_rect : Rect) (grid_w grid_h y : ℕ)
      (row_expected : List (Option (MainColor × ShadeButton)))
      (sample : ℕ → Point → RGB),
      cfg.verify_rows = true →
      (∀ x main shade, row_expected.getD x none = some (main, shade) →
        sample 0 (cell_center canvas_rect grid_w grid_h x y) = shade.rgb) →
      verify_and_repair_row cfg canvas_rect grid_w grid_h y row_expected sample =
        { taps := [], progress := [], passes := 1, error := none }) ∧
    (∀ (cfg : AppConfig) (canvas_rect : Rect) (grid_w grid_h : ℕ)
      (main : MainColor) (shade : ShadeButton) (coords : List Coord)
      (sample : ℕ → Point → RGB),
      cfg.verify_rows = true →
      (∀ c ∈ coords, sample 0 (cell_center canvas_rect grid_w grid_h c.1 c.2) = shade.rgb) →
      verify_and_repair_color_group cfg canvas_rect grid_w grid_h main shade coords sample =
        { taps := [], progress := [], passes := 1, error := none }) := by
  constructor
  · intro cfg canvas_rect grid_w grid_h y row_expected sample hv h
    unfold verify_and_repair_row
    rw [hv]
    obtain ⟨k, hk⟩ : ∃ k, verifyMaxPasses cfg = k + 1 := by
      have := verifyMaxPasses_pos cfg
      exact ⟨verifyMaxPasses cfg - 1, by omega⟩
    rw [hk]
    simp only [rowVerifyGo]
    have hg : rowPassGroups cfg canvas_rect grid_w grid_h y row_expected sample 0 = [] := by
      unfold rowPassGroups
      apply collectRowGroups_of_accepted
      intro x _ main shade hexp
      rw [h x main shade hexp, dist2_self]
      exact verifyTol2_nonneg cfg
    rw [hg]
    rfl
  · intro cfg canvas_rect grid_w grid_h main shade coords sample hv h
    unfold verify_and_repair_color_group
    rw [hv]
    obtain ⟨k, hk⟩ : ∃ k, verifyMaxPasses cfg = k + 1 := by
      have := verifyMaxPasses_pos cfg
      exact ⟨verifyMaxPasses cfg - 1, by omega⟩
    rw [hk]
    simp only [colorVerifyGo]
    have hm : colorPassMismatches cfg canvas_rect grid_w grid_h shade
        (sortByLt coordLt coords) sample 0 = [] := by
      unfold colorPassMismatches
      apply collectColorMismatches_of_accepted
      intro c hc
      rw [h c ((mem_sortByLt coordLt c coords).mp hc), dist2_self]
      exact verifyTol2_nonneg cfg
    rw [hm]
    rfl

/-- Witness for C4: a concrete already-correct row batch and color batch
both converge with zero taps on the first pass. -/
theorem verify_loop_idempotent_witness :
    verify_and_repair_row wCfg (0, 0, 100, 100) 2 2 0
        [some (wMain1, wShadeR1), some (wMain1, wShadeR1)] (fun _ _ => (255, 0, 0)) =
      { taps := [], progress := [], passes := 1, error := none } ∧
    verify_and_repair_color_group wCfg (0, 0, 100, 100) 2 2 wMain1 wShadeR1
        [(0, 0), (1, 0)] (fun _ _ => (255, 0, 0)) =
      { taps := [], progress := [], passes := 1, error := none } := by
  constructor
  · apply verify_loop_idempotent.1 _ _ _ _ _ _ _ rfl
    intro x main shade hexp
    match x with
    | 0 =>
      simp only [List.getD_cons_zero, Option.some.injEq] at hexp
      injection hexp with h1 h2
      rw [← h2]
      rfl
    | 1 =>
      simp only [List.getD_cons_succ, List.getD_cons_zero, Option.some.injEq] at hexp
      injection hexp with h1 h2
      rw [← h2]
      rfl
    | n + 2 =>
      simp [List.getD] at hexp
  · apply verify_loop_idempotent.2 _ _ _ _ _ _ _ _ rfl
    decide

lemma rowVerifyGo_passes_le (cfg : AppConfig) (canvas_rect : Rect) (grid_w grid_h y : ℕ)
    (row_expected : List (Option (MainColor × ShadeButton))) (sample : ℕ → Point → RGB)
    (p f : ℕ) :
    (rowVerifyGo cfg canvas_rect grid_w grid_h y row_expected sample p f).passes ≤ f := by
  induction f generalizing p with
  | zero => simp [rowVerifyGo]
  | succ n ih =>
    simp only [rowVerifyGo]
    split
    · simp
    · split
      · simp
      · rename_i st taps prog heq
        simpa using ih (p + 1)

lemma rowVerifyGo_raises (cfg : AppConfig) (canvas_rect : Rect) (grid_w grid_h y : ℕ)
    (row_expected : List (Option (MainColor × ShadeButton))) (sample : ℕ → Point → RGB)
    (p f : ℕ)
    (h : ∀ q, p ≤ q → q < p + f →
      rowPassGroups cfg canvas_rect grid_w grid_h y row_expected sample q ≠ []) :
    (rowVerifyGo cfg canvas_rect grid_w grid_h y row_expected sample p f).error.isSome = true := by
  induction f generalizing p with
  | zero => simp [rowVerifyGo]
  | succ n ih =>
    simp only [rowVerifyGo]
    split
    · rename_i hg
      exact absurd hg (h p le_rfl (by omega))
    · split
      · simp
      · simpa using ih (p + 1) fun q h1 h2 => h q (by omega) (by omega)

lemma rowVerifyGo_ok (cfg : AppConfig) (canvas_rect : Rect) (grid_w grid_h y : ℕ)
    (row_expected : List (Option (MainColor × ShadeButton))) (sample : ℕ → Point → RGB)
    (p f : ℕ)
    (h : (rowVerifyGo cfg canvas_rect grid_w grid_h y row_expected sample p f).error = none) :
    ∃ q, p ≤ q ∧ q < p + f ∧
      rowPassGroups cfg canvas_rect grid_w grid_h y row_expected sample q = [] := by
  induction f generalizing p with
  | zero => simp [rowVerifyGo] at h
  | succ n ih =>
    simp only [rowVerifyGo] at h
    revert h
    split
    · rename_i hg
      exact fun _ => ⟨p, le_rfl, by omega, hg⟩
    · split
      · simp
      · intro h
        obtain ⟨q, h1, h2, h3⟩ := ih (p + 1) (by simpa using h)
        exact ⟨q, by omega, by omega, h3⟩

lemma colorVerifyGo_passes_le (cfg : AppConfig) (canvas_rect : Rect) (grid_w grid_h : ℕ)
    (main : MainColor) (shade : ShadeButton) (coords_sorted : List Coord)
    (sample : ℕ → Point → RGB) (p f : ℕ) :
    (colorVerifyGo cfg canvas_rect grid_w grid_h main shade coords_sorted sample p f).passes
      ≤ f := by
  induction f generalizing p with
  | zero => simp [colorVerifyGo]
  | succ n ih =>
    simp only [colorVerifyGo]
    split
    · simp
    · split
      · simp
      · simpa using ih (p + 1)

lemma colorVerifyGo_raises (cfg : AppConfig) (canvas_rect : Rect) (grid_w grid_h : ℕ)
    (main : MainColor) (shade : ShadeButton) (coords_sorted : List Coord)
    (sample : ℕ → Point → RGB) (p f : ℕ)
    (h : ∀ q, p ≤ q → q < p + f →
      colorPassMismatches cfg canvas_rect grid_w grid_h shade coords_sorted sample q ≠ []) :
    (colorVerifyGo cfg canvas_rect grid_w grid_h main shade coords_sorted sample p
      f).error.isSome = true := by
  induction f generalizing p with
  | zero => simp [colorVerifyGo]
  | succ n ih =>
    simp only [colorVerifyGo]
    split
    · rename_i hg
      exact absurd hg (h p le_rfl (by omega))
    · split
      · simp
      · simpa using ih (p + 1) fun q h1 h2 => h q (by omega) (by omega)

lemma colorVerifyGo_ok (cfg : AppConfig) (canvas_rect : Rect) (grid_w grid_h : ℕ)
    (main : MainColor) (shade : ShadeButton) (coords_sorted : List Coord)
    (sample : ℕ → Point → RGB) (p f : ℕ)
    (h : (colorVerifyGo cfg canvas_rect grid_w grid_h main shade coords_sorted sample p
      f).error = none) :
    ∃ q, p ≤ q ∧ q < p + f ∧
      colorPassMismatches cfg canvas_rect grid_w grid_h shade coords_sorted sample q = [] := by
  induction f generalizing p with
  | zero => simp [colorVerifyGo] at h
  | succ n ih =>
    simp only [colorVerifyGo] at h
    revert h
    split
    · rename_i hg
      exact fun _ => ⟨p, le_rfl, by omega, hg⟩
    · split
      · simp
      · intro h
        obtain ⟨q, h1, h2, h3⟩ := ih (p + 1) (by simpa using h)
        exact ⟨q, by omega, by omega, h3⟩

/-- C5: with verification enabled (and no stop signal, as modelled), each
verify-and-repair loop executes at most max(1, verify_max_passes) scan
passes; if every allowed pass detects mismatches it ends with a raised
error; and it returns without error only if some executed pass detected
zero mismatches. -/
theorem verify_loop_bounded_and_raises :
    (∀ (cfg : AppConfig) (canvas_rect : Rect) (grid_w grid_h y : ℕ)
      (row_expected : List (Option (MainColor × ShadeButton)))
      (sample : ℕ → Point → RGB),
      cfg.verify_rows = true →
      (verify_and_repair_row cfg canvas_rect grid_w grid_h y row_expected sample).passes
        ≤ verifyMaxPasses cfg ∧
      ((∀ p < verifyMaxPasses cfg,
          rowPassGroups cfg canvas_rect grid_w grid_h y row_expected sample p ≠ []) →
        (verify_and_repair_row cfg canvas_rect grid_w grid_h y row_expected
          sample).error.isSome = true) ∧
      ((verify_and_repair_row cfg canvas_rect grid_w grid_h y row_expected sample).error
          = none →
        ∃ p < verifyMaxPasses cfg,
          rowPassGroups cfg canvas_rect grid_w grid_h y row_expected sample p = [])) ∧
    (∀ (cfg : AppConfig) (canvas_rect : Rect) (grid_w grid_h : ℕ)
      (main : MainColor) (shade : ShadeButton) (coords : List Coord)
      (sample : ℕ → Point → RGB),
      cfg.verify_rows = true →
      (verify_and_repair_color_group cfg canvas_rect grid_w grid_h main shade coords
        sample).passes ≤ verifyMaxPasses cfg ∧
      ((∀ p < verifyMaxPasses cfg,
          colorPassMismatches cfg canvas_rect grid_w grid_h shade
            (sortByLt coordLt coords) sample p ≠ []) →
        (verify_and_repair_color_group cfg canvas_rect grid_w grid_h main shade coords
          sample).error.isSome = true) ∧
      ((verify_and_repair_color_group cfg canvas_rect grid_w grid_h main shade coords
          sample).error = none →
        ∃ p < verifyMaxPasses cfg,
          colorPassMismatches cfg canvas_rect grid_w grid_h shade
            (sortByLt coordLt coords) sample p = [])) := by
  constructor
  · intro cfg canvas_rect grid_w grid_h y row_expected sample hv
    unfold verify_and_repair_row
    rw [hv]
    simp only [if_true]
    refine ⟨rowVerifyGo_passes_le _ _ _ _ _ _ _ _ _, ?_, ?_⟩
    · intro h
      exact rowVerifyGo_raises _ _ _ _ _ _ _ _ _ fun q h1 h2 => h q (by omega)
    · intro h
      obtain ⟨q, h1, h2, h3⟩ := rowVerifyGo_ok _ _ _ _ _ _ _ _ _ h
      exact ⟨q, by omega, h3⟩
  · intro cfg canvas_rect grid_w grid_h main shade coords sample hv
    unfold verify_and_repair_color_group
    rw [hv]
    simp only [if_true]
    refine ⟨colorVerifyGo_passes_le _ _ _ _ _ _ _ _ _ _, ?_, ?_⟩
    · intro h
      exact colorVerifyGo_raises _ _ _ _ _ _ _ _ _ _ fun q h1 h2 => h q (by omega)
    · intro h
      obtain ⟨q, h1, h2, h3⟩ := colorVerifyGo_ok _ _ _ _ _ _ _ _ _ _ h
      exact ⟨q, by omega, h3⟩

/-- Witness for C5: with a sampler that always returns black, a row batch
expecting the red shade never converges; the loop raises and executes at
most the configured number of passes, and similarly for a color group. -/
theorem verify_loop_bounded_and_raises_witness :
    (verify_and_repair_row wCfg (0, 0, 100, 100) 1 1 0 [some (wMain1, wShadeR1)]
      (fun _ _ => (0, 0, 0))).error.isSome = true ∧
    (verify_and_repair_row wCfg (0, 0, 100, 100) 1 1 0 [some (wMain1, wShadeR1)]
      (fun _ _ => (0, 0, 0))).passes ≤ verifyMaxPasses wCfg ∧
    (verify_and_repair_color_group wCfg (0, 0, 100, 100) 1 1 wMain1 wShadeR1 [(0, 0)]
      (fun _ _ => (0, 0, 0))).error.isSome = true := by
  have hr := verify_loop_bounded_and_raises.1 wCfg (0, 0, 100, 100) 1 1 0
    [some (wMain1, wShadeR1)] (fun _ _ => (0, 0, 0)) rfl
  have hc := verify_loop_bounded_and_raises.2 wCfg (0, 0, 100, 100) 1 1 wMain1 wShadeR1
    [(0, 0)] (fun _ _ => (0, 0, 0)) rfl
  have key1 : rowPassGroups wCfg (0, 0, 100, 100) 1 1 0 [some (wMain1, wShadeR1)]
      (fun _ _ => (0, 0, 0)) 0 ≠ [] := by decide
  have key2 : colorPassMismatches wCfg (0, 0, 100, 100) 1 1 wShadeR1
      (sortByLt coordLt [(0, 0)]) (fun _ _ => (0, 0, 0)) 0 ≠ [] := by decide
  exact ⟨hr.2.1 fun p hp => key1, hr.1, hc.2.1 fun p hp => key2⟩

/-- C6 (amended): during verification a sampled cell is accepted (kept out of
the mismatch list) iff its squared RGB distance to the expected shade RGB is
at most (max 0 verify_tolerance) squared: the configured tolerance is a
Euclidean-distance bound that the code squares before comparing, not itself
the maximum squared distance. -/
theorem verify_acceptance_uses_squared_tolerance (cfg : AppConfig) (canvas_rect : Rect)
    (grid_w grid_h : ℕ) (shade : ShadeButton) (coords_sorted : List Coord)
    (sample : ℕ → Point → RGB) (p : ℕ) (c : Coord) :
    c ∈ colorPassMismatches cfg canvas_rect grid_w grid_h shade coords_sorted sample p ↔
      c ∈ coords_sorted ∧
        ¬ dist2 (sample p (cell_center canvas_rect grid_w grid_h c.1 c.2)) shade.rgb ≤
            (max 0 cfg.verify_tolerance) ^ 2 := by
  unfold colorPassMismatches
  induction coords_sorted with
  | nil => simp [collectColorMismatches]
  | cons d rest ih =>
    simp only [collectColorMismatches]
    split
    · rename_i hd
      simp only [List.mem_cons, ih]
      constructor
      · rintro (rfl | ⟨h1, h2⟩)
        · exact ⟨Or.inl rfl, by simpa [verifyTol2] using hd⟩
        · exact ⟨Or.inr h1, h2⟩
      · rintro ⟨rfl | h1, h2⟩
        · exact Or.inl rfl
        · exact Or.inr ⟨h1, h2⟩
    · rename_i hd
      simp only [List.mem_cons, ih]
      constructor
      · rintro ⟨h1, h2⟩
        exact ⟨Or.inr h1, h2⟩
      · rintro ⟨rfl | h1, h2⟩
        · exact absurd (by simpa [verifyTol2] using hd) h2
        · exact ⟨h1, h2⟩

/-- Shade used in the C6 counterexample: reference RGB black. -/
def cShadeBlack : ShadeButton := ⟨"Black", (100, 320), (0, 0, 0)⟩

def cMainNeutral : MainColor :=
  { name := "Neutral", pos := (300, 480), rgb := (0, 0, 0), shades := [cShadeBlack] }

/-- Counterexample to C6 as stated: with the default tolerance 35, a cell
sampling (10,0,0) against expected (0,0,0) has squared distance 100, which
EXCEEDS the configured tolerance value, yet the verify loop accepts it (zero
mismatches, converges on the first pass with no taps): the tolerance is not
the maximum allowed squared distance. -/
theorem tolerance_not_squared_distance_counterexample :
    verify_and_repair_color_group wCfg (0, 0, 100, 100) 1 1 cMainNeutral cShadeBlack
        [(0, 0)] (fun _ _ => (10, 0, 0)) =
      { taps := [], progress := [], passes := 1, error := none } ∧
    dist2 (10, 0, 0) cShadeBlack.rgb = 100 ∧
    wCfg.verify_tolerance = 35 ∧
    ¬ ((100 : ℤ) ≤ wCfg.verify_tolerance) := by
  refine ⟨?_, by decide, by decide, by decide⟩
  decide

/-- Result of a paint_grid run: tap trace, progress events, raised error. -/
structure PaintResult where
  taps : List Point
  progress : List Coord
  error : Option String
deriving DecidableEq, Repr

/-- The configuration-incomplete message of paint_grid (line 754). -/
def configIncompleteMsg : String :=
  "Color configuration incomplete. Set up colors and global buttons first."

/-- The inline selection of the row-order scheduler (paint_grid lines
897-913). Unlike _select_shade, the back tap on a main-color change is
guarded by the in_shades_panel flag, and the shade button is tapped ONCE
(no deliberate double-tap here). -/
def rowInlineSelect (panelPos backPos : Point) (main : MainColor) (shade : ShadeButton)
    (st : SelState) : SelState × List Point :=
  let mainDiffers : Bool :=
    match st.last_main with
    | none => true
    | some lm => decide (main.name ≠ lm.name)
  let step1 : SelState × List Point :=
    if mainDiffers then
      let backTaps : List Point := if st.in_shades_panel then [backPos] else []
      (⟨some main, none, true⟩, backTaps ++ [main.pos, panelPos])
    else (st, [])
  let st1 := step1.1
  let step2 : SelState × List Point :=
    if st1.in_shades_panel then (st1, [])
    else ({ st1 with in_shades_panel := true }, [panelPos])
  let st2 := step2.1
  let shadeDiffers : Bool :=
    match st2.last_shade with
    | none => true
    | some ls => decide (shade.pos ≠ ls.pos)
  let step3 : SelState × List Point :=
    if shadeDiffers then ({ st2 with last_shade := some shade }, [shade.pos])
    else (st2, [])
  (step3.1, step1.2 ++ step2.2 ++ step3.2)

/-- Run extension of the row scheduler (paint_grid lines 883-894): extend
the run while the next cell is in range, not skipped, and matches the same
(main name, shade pos). The match cache is transparent
(memoized_matcher_transparent), so find_best_match stands in for get_match. -/
def runEnd (cfg : AppConfig) (grid_w y : ℕ) (get_pixel : ℕ → ℕ → RGB)
    (skip : ℕ → ℕ → Bool) (mainName : String) (shadePos : Point) : ℕ → ℕ → ℕ
  | e, 0 => e
  | e, fuel + 1 =>
    if e + 1 < grid_w then
      if skip (e + 1) y then e
      else
        match find_best_match (get_pixel (e + 1) y) cfg with
        | none => e
        | some (nmain, nshade) =>
          if nmain.name = mainName ∧ nshade.pos = shadePos then
            runEnd cfg grid_w y get_pixel skip mainName shadePos (e + 1) fuel
          else e
    else e

/-- Output of painting the cells of one row (state, taps, progress). -/
structure CellsOut where
  st : SelState
  taps : List Point
  progress : List Coord
deriving DecidableEq, Repr

/-- The while loop over x of the row scheduler (paint_grid lines 857-935):
skip-masked cells emit progress and advance; cells with no palette match
advance WITHOUT progress; bucket-prefilled cells emit progress and advance;
otherwise the maximal same-shade run is selected (inline, single shade tap)
and painted cell by cell (the stroke branch clicks the same points). -/
def paintRowCells (cfg : AppConfig) (canvas_rect : Rect) (grid_w grid_h y : ℕ)
    (get_pixel : ℕ → ℕ → RGB) (skip : ℕ → ℕ → Bool)
    (bucket_key : Option (String × Point)) (panelPos backPos : Point) :
    SelState → ℕ → ℕ → CellsOut
  | st, _, 0 => ⟨st, [], []⟩
  | st, x, fuel + 1 =>
    if x < grid_w then
      if skip x y then
        let r := paintRowCells cfg canvas_rect grid_w grid_h y get_pixel skip bucket_key
          panelPos backPos st (x + 1) fuel
        ⟨r.st, r.taps, (x, y) :: r.progress⟩
      else
        match find_best_match (get_pixel x y) cfg with
        | none =>
          paintRowCells cfg canvas_rect grid_w grid_h y get_pixel skip bucket_key
            panelPos backPos st (x + 1) fuel
        | some (main, shade) =>
          if bucket_key = some (main.name, shade.pos) then
            let r := paintRowCells cfg canvas_rect grid_w grid_h y get_pixel skip bucket_key
              panelPos backPos st (x + 1) fuel
            ⟨r.st, r.taps, (x, y) :: r.progress⟩
          else
            let re := runEnd cfg grid_w y get_pixel skip main.name shade.pos x grid_w
            let sel := rowInlineSelect panelPos backPos main shade st
            let runCells := List.range' x (re + 1 - x)
            let cellTaps := runCells.map fun xx => cell_center canvas_rect grid_w grid_h xx y
            let runProg : List Coord := runCells.map fun xx => (xx, y)
            let r := paintRowCells cfg canvas_rect grid_w grid_h y get_pixel skip bucket_key
              panelPos backPos sel.1 (re + 1) fuel
            ⟨r.st, sel.2 ++ cellTaps ++ r.taps, runProg ++ r.progress⟩
    else ⟨st, [], []⟩

/-- Expected shades of a row, computed after the row is attempted
(paint_grid lines 938-944). -/
def rowExpected (cfg : AppConfig) (grid_w y : ℕ) (get_pixel : ℕ → ℕ → RGB)
    (skip : ℕ → ℕ → Bool) : List (Option (MainColor × ShadeButton)) :=
  (List.range grid_w).map fun xx =>
    if skip xx y then none else find_best_match (get_pixel xx y) cfg

/-- Output of the per-row loop. -/
structure RowsOut where
  st : SelState
  taps : List Point
  progress : List Coord
  error : Option String
deriving DecidableEq, Repr

/-- The per-row loop of the row scheduler: paint a row, then verify and
repair it; a verification error propagates and aborts the remaining rows. -/
def paintRowsGo (cfg : AppConfig) (canvas_rect : Rect) (grid_w grid_h : ℕ)
    (get_pixel : ℕ → ℕ → RGB) (skip : ℕ → ℕ → Bool)
    (bucket_key : Option (String × Point)) (panelPos backPos : Point)
    (sample : ℕ → ℕ → Point → RGB) :
    SelState → List ℕ → RowsOut
  | st, [] => ⟨st, [], [], none⟩
  | st, y :: rest =>
    let r1 := paintRowCells cfg canvas_rect grid_w grid_h y get_pixel skip bucket_key
      panelPos backPos st 0 grid_w
    let vr := verify_and_repair_row cfg canvas_rect grid_w grid_h y
      (rowExpected cfg grid_w y get_pixel skip) (sample y)
    match vr.error with
    | some e => ⟨r1.st, r1.taps ++ vr.taps, r1.progress ++ vr.progress, some e⟩
    | none =>
      let r2 := paintRowsGo cfg canvas_rect grid_w grid_h get_pixel skip bucket_key
        panelPos backPos sample r1.st rest
      ⟨r2.st, r1.taps ++ vr.taps ++ r2.taps, r1.progress ++ vr.progress ++ r2.progress,
        r2.error⟩

/-- Usage counts of the bucket pre-pass, keyed like the Python dict by
(main.name, shade.pos), in insertion order. -/
abbrev CountsL : Type := List ((String × Point) × ℕ × MainColor × ShadeButton)

def bumpCount : CountsL → MainColor → ShadeButton → CountsL
  | [], mc, sh => [((mc.name, sh.pos), 1, mc, sh)]
  | (k, n, m, s) :: rest, mc, sh =>
    if k = (mc.name, sh.pos) then (k, n + 1, m, s) :: rest
    else (k, n, m, s) :: bumpCount rest mc sh

/-- Cell traversal order of the bucket pre-pass (row outer, column inner),
paint_grid lines 810-823. -/
def allCells (grid_w grid_h : ℕ) : List Coord :=
  (List.range grid_h).flatMap fun yy => (List.range grid_w).map fun xx => (xx, yy)

def buildCounts (cfg : AppConfig) (get_pixel : ℕ → ℕ → RGB) (skip : ℕ → ℕ → Bool) :
    List Coord → CountsL → CountsL
  | [], cs => cs
  | c :: rest, cs =>
    if skip c.1 c.2 then buildCounts cfg get_pixel skip rest cs
    else
      match find_best_match (get_pixel c.1 c.2) cfg with
      | none => buildCounts cfg get_pixel skip rest cs
      | some (mc, sh) => buildCounts cfg get_pixel skip rest (bumpCount cs mc sh)

/-- Python max(items, key=count): the first item attaining the maximal count
wins (a later item replaces the current best only when strictly larger). -/
def firstMaxCount : CountsL → Option ((String × Point) × ℕ × MainColor × ShadeButton)
  | [] => none
  | c :: rest =>
    match firstMaxCount rest with
    | none => some c
    | some m => if c.2.1 < m.2.1 then some m else some c

/-- paint.py _bucket_fill_canvas_with_shade: tap trace of the whole-canvas
bucket-fill pre-pass (paint tool, shade selection, back out of the panel,
bucket tool, one click at the canvas center, paint tool again). Raises when
the tool buttons are unset. -/
def bucket_fill_canvas_with_shade (cfg : AppConfig) (canvas_rect : Rect)
    (main : MainColor) (shade : ShadeButton) : Except String (List Point) :=
  match cfg.paint_tool_button_pos, cfg.bucket_tool_button_pos with
  | some paintPos, some bucketPos =>
    match select_shade cfg main shade ⟨none, none, false⟩ with
    | .error e => .error e
    | .ok (st1, selTaps) =>
      let backTaps : List Point :=
        if st1.in_shades_panel then
          match cfg.back_button_pos with
          | some b => [b]
          | none => []
        else []
      let (x0, y0, w, h) := canvas_rect
      let fillPt : Point := ((2 * x0 + w).tdiv 2, (2 * y0 + h).tdiv 2)
      .ok ([paintPos] ++ selTaps ++ backTaps ++ [bucketPos, fillPt, paintPos])
  | _, _ =>
    .error "Bucket fill is enabled but tool button positions are not set. Capture the paint tool and bucket tool buttons first."

/-- paint.py paint_grid in its default row mode (the color-mode dispatch at
lines 763-788 hands off to _paint_grid_by_color and is not taken here).
Mirrors, in order: the early return on a nonpositive grid (lines 750-751),
the configuration-incomplete check (753-754), the optional bucket-fill
pre-pass (806-849), the per-row paint loop with per-row verification
(851-961), and the final back tap (964-965). -/
def paint_grid (cfg : AppConfig) (canvas_rect : Rect) (grid_w grid_h : ℕ)
    (get_pixel : ℕ → ℕ → RGB) (skip : ℕ → ℕ → Bool) (allow_bucket_fill : Bool)
    (sample : ℕ → ℕ → Point → RGB) : PaintResult :=
  if grid_w = 0 ∨ grid_h = 0 then { taps := [], progress := [], error := none }
  else
    match cfg.main_colors, cfg.shades_panel_button_pos, cfg.back_button_pos with
    | [], _, _ => { taps := [], progress := [], error := some configIncompleteMsg }
    | _ :: _, none, _ => { taps := [], progress := [], error := some configIncompleteMsg }
    | _ :: _, some _, none => { taps := [], progress := [], error := some configIncompleteMsg }
    | _ :: _, some panelPos, some backPos =>
      let bucketStep : Except String (Option (String × Point) × List Point) :=
        if allow_bucket_fill ∧ cfg.bucket_fill_enabled then
          match firstMaxCount (buildCounts cfg get_pixel skip (allCells grid_w grid_h) []) with
          | none => .ok (none, [])
          | some (k, n, mc, sh) =>
            if (n : ℤ) < max 0 cfg.bucket_fill_min_cells then .ok (none, [])
            else
              match bucket_fill_canvas_with_shade cfg canvas_rect mc sh with
              | .error e => .error e
              | .ok taps => .ok (some k, taps)
        else .ok (none, [])
      match bucketStep with
      | .error e => { taps := [], progress := [], error := some e }
      | .ok (bucket_key, btaps) =>
        let rd := paintRowsGo cfg canvas_rect grid_w grid_h get_pixel skip bucket_key
          panelPos backPos sample ⟨none, none, false⟩ (List.range grid_h)
        let finalBack : List Point :=
          match rd.error with
          | some _ => []
          | none => if rd.st.in_shades_panel then [backPos] else []
        { taps := btaps ++ rd.taps ++ finalBack, progress := rd.progress, error := rd.error }

lemma fbm_none_of_no_shades (cfg : AppConfig) (h : ∀ mc ∈ cfg.main_colors, mc.shades = [])
    (rgb : RGB) : find_best_match rgb cfg = none := by
  rw [find_best_match_eq_none_iff]
  exact (allShadePairs_eq_nil_iff cfg).mpr h

lemma paintRowCells_no_shades (cfg : AppConfig) (canvas_rect : Rect)
    (grid_w grid_h y : ℕ) (get_pixel : ℕ → ℕ → RGB) (skip : ℕ → ℕ → Bool)
    (bucket_key : Option (String × Point)) (panelPos backPos : Point)
    (hnone : ∀ rgb, find_best_match rgb cfg = none) :
    ∀ (fuel x : ℕ) (st : SelState), grid_w ≤ x + fuel →
      paintRowCells cfg canvas_rect grid_w grid_h y get_pixel skip bucket_key
        panelPos backPos st x fuel =
      ⟨st, [], ((List.range' x (grid_w - x)).filter fun xx => skip xx y).map
        fun xx => ((xx, y) : Coord)⟩ := by
  intro fuel
  induction fuel with
  | zero =>
    intro x st hle
    have : grid_w - x = 0 := by omega
    simp [paintRowCells, this]
  | succ n ih =>
    intro x st hle
    simp only [paintRowCells]
    by_cases hx : x < grid_w
    · rw [if_pos hx]
      have hrange : List.range' x (grid_w - x) = x :: List.range' (x + 1) (grid_w - (x + 1)) := by
        have h1 : grid_w - x = (grid_w - (x + 1)) + 1 := by omega
        rw [h1, List.range'_succ]
      by_cases hs : skip x y
      · rw [if_pos hs, ih (x + 1) st (by omega)]
        simp [hrange, hs]
      · rw [if_neg hs, hnone (get_pixel x y)]
        rw [ih (x + 1) st (by omega)]
        simp [hrange, hs]
    · rw [if_neg hx]
      have : grid_w - x = 0 := by omega
      simp [this]

lemma getD_none_of_all_none (l : List (Option (MainColor × ShadeButton)))
    (hl : ∀ z ∈ l, z = none) : ∀ x, l.getD x none = none := by
  induction l with
  | nil => intro x; rfl
  | cons a rest ih =>
    intro x
    match x with
    | 0 => exact hl a (List.mem_cons_self a rest)
    | n + 1 =>
      simp only [List.getD_cons_succ]
      exact ih (fun z hz => hl z (List.mem_cons_of_mem _ hz)) n

lemma verify_row_all_none (cfg : AppConfig) (canvas_rect : Rect) (grid_w grid_h y : ℕ)
    (row_expected : List (Option (MainColor × ShadeButton))) (sample : ℕ → Point → RGB)
    (hre : ∀ x, row_expected.getD x none = none) :
    verify_and_repair_row cfg canvas_rect grid_w grid_h y row_expected sample =
      if cfg.verify_rows then { taps := [], progress := [], passes := 1, error := none }
      else { taps := [], progress := [], passes := 0, error := none } := by
  unfold verify_and_repair_row
  by_cases hv : cfg.verify_rows
  · rw [if_pos hv, if_pos hv]
    obtain ⟨k, hk⟩ : ∃ k, verifyMaxPasses cfg = k + 1 := by
      have := verifyMaxPasses_pos cfg
      exact ⟨verifyMaxPasses cfg - 1, by omega⟩
    rw [hk]
    simp only [rowVerifyGo]
    have hg : rowPassGroups cfg canvas_rect grid_w grid_h y row_expected sample 0 = [] := by
      unfold rowPassGroups
      apply collectRowGroups_of_accepted
      intro x _ main shade hexp
      rw [hre x] at hexp
      exact absurd hexp (by simp)
    rw [hg]
  · rw [if_neg hv, if_neg hv]

lemma rowExpected_all_none (cfg : AppConfig) (grid_w y : ℕ) (get_pixel : ℕ → ℕ → RGB)
    (skip : ℕ → ℕ → Bool) (hnone : ∀ rgb, find_best_match rgb cfg = none) :
    ∀ z ∈ rowExpected cfg grid_w y get_pixel skip, z = none := by
  intro z hz
  unfold rowExpected at hz
  obtain ⟨xx, _, hmap⟩ := List.mem_map.mp hz
  rw [← hmap]
  by_cases hs : skip xx y
  · simp [hs]
  · simp [hs, hnone]

lemma paintRowsGo_no_shades (cfg : AppConfig) (canvas_rect : Rect) (grid_w grid_h : ℕ)
    (get_pixel : ℕ → ℕ → RGB) (skip : ℕ → ℕ → Bool)
    (bucket_key : Option (String × Point)) (panelPos backPos : Point)
    (sample : ℕ → ℕ → Point → RGB)
    (hnone : ∀ rgb, find_best_match rgb cfg = none) :
    ∀ (ys : List ℕ) (st : SelState),
      paintRowsGo cfg canvas_rect grid_w grid_h get_pixel skip bucket_key
        panelPos backPos sample st ys =
      ⟨st, [], ys.flatMap fun y => ((List.range grid_w).filter fun x => skip x y).map
        fun x => ((x, y) : Coord), none⟩ := by
  intro ys
  induction ys with
  | nil => intro st; rfl
  | cons y rest ih =>
    intro st
    simp only [paintRowsGo]
    rw [paintRowCells_no_shades cfg canvas_rect grid_w grid_h y get_pixel skip bucket_key
      panelPos backPos hnone grid_w 0 st (by omega)]
    rw [verify_row_all_none cfg canvas_rect grid_w grid_h y _ (sample y)
      (getD_none_of_all_none _ (rowExpected_all_none cfg grid_w y get_pixel skip hnone))]
    by_cases hv : cfg.verify_rows
    · rw [if_pos hv]
      simp only []
      rw [ih st]
      simp [List.range_eq_range']
    · rw [if_neg hv]
      simp only []
      rw [ih st]
      simp [List.range_eq_range']

lemma buildCounts_no_shades (cfg : AppConfig) (get_pixel : ℕ → ℕ → RGB)
    (skip : ℕ → ℕ → Bool) (hnone : ∀ rgb, find_best_match rgb cfg = none) :
    ∀ (cells : List Coord) (cs : CountsL),
      buildCounts cfg get_pixel skip cells cs = cs := by
  intro cells
  induction cells with
  | nil => intro cs; rfl
  | cons c rest ih =>
    intro cs
    simp only [buildCounts]
    by_cases hs : skip c.1 c.2
    · rw [if_pos hs]; exact ih cs
    · rw [if_neg hs, hnone (get_pixel c.1 c.2)]
      exact ih cs

lemma paint_grid_no_shades (cfg : AppConfig) (canvas_rect : Rect) (grid_w grid_h : ℕ)
    (get_pixel : ℕ → ℕ → RGB) (skip : ℕ → ℕ → Bool) (allow_bucket_fill : Bool)
    (sample : ℕ → ℕ → Point → RGB) (m : MainColor) (ms : List MainColor)
    (panelPos backPos : Point)
    (hmc : cfg.main_colors = m :: ms)
    (hpanel : cfg.shades_panel_button_pos = some panelPos)
    (hback : cfg.back_button_pos = some backPos)
    (hshades : ∀ mc ∈ cfg.main_colors, mc.shades = []) :
    paint_grid cfg canvas_rect grid_w grid_h get_pixel skip allow_bucket_fill sample =
      ⟨[], (List.range grid_h).flatMap fun y =>
        ((List.range grid_w).filter fun x => skip x y).map fun x => ((x, y) : Coord),
        none⟩ := by
  have hnone := fbm_none_of_no_shades cfg hshades
  unfold paint_grid
  by_cases hz : grid_w = 0 ∨ grid_h = 0
  · rw [if_pos hz]
    rcases hz with hz | hz <;> simp [hz]
  · rw [if_neg hz]
    rw [hmc, hpanel, hback]
    simp only []
    rw [buildCounts_no_shades cfg get_pixel skip hnone]
    have hstep : (if allow_bucket_fill ∧ cfg.bucket_fill_enabled = true then
        (match firstMaxCount [] with
          | none => Except.ok (none, [])
          | some (k, n, mc, sh) =>
            if (n : ℤ) < max 0 cfg.bucket_fill_min_cells then Except.ok (none, [])
            else
              match bucket_fill_canvas_with_shade cfg canvas_rect mc sh with
              | Except.error e => Except.error e
              | Except.ok taps => Except.ok (some k, taps) :
          Except String (Option (String × Point) × List Point))
      else Except.ok (none, [])) = Except.ok (none, []) := by
      by_cases hb : allow_bucket_fill ∧ cfg.bucket_fill_enabled = true
      · rw [if_pos hb]; rfl
      · rw [if_neg hb]
    rw [hstep]
    simp only []
    rw [paintRowsGo_no_shades cfg canvas_rect grid_w grid_h get_pixel skip none
      panelPos backPos sample hnone (List.range grid_h) ⟨none, none, false⟩]
    rfl

/-- Palette of the C1 / C7 counterexamples: one main color with no shades,
both navigation buttons set. -/
def cShadelessMain : MainColor :=
  { name := "Red", pos := (300, 400), rgb := (200, 0, 0), shades := [] }

def cShadelessCfg : AppConfig :=
  { shades_panel_button_pos := some (10, 10), back_button_pos := some (20, 20),
    main_colors := [cShadelessMain] }

/-- Counterexample to C1 as stated: a palette with one MainColor but zero
shades in total, both navigation buttons set, on a positive grid: paint_grid
does NOT raise the Configuration-incomplete error (it returns without error,
issuing no taps), because the precondition check tests only that the
main-color list is nonempty, never that any shade exists. -/
theorem zero_shades_no_error_counterexample :
    (paint_grid cShadelessCfg (0, 0, 100, 100) 1 1 (fun _ _ => (255, 255, 255))
      (fun _ _ => false) true (fun _ _ _ => (0, 0, 0))).error = none ∧
    (paint_grid cShadelessCfg (0, 0, 100, 100) 1 1 (fun _ _ => (255, 255, 255))
      (fun _ _ => false) true (fun _ _ _ => (0, 0, 0))).taps = [] := by
  decide

/-- C1 (amended): paint_grid raises the Configuration-incomplete error,
before issuing any tap, exactly when the main-color list is empty or a
navigation button position is unset (given a positive grid); a palette
whose main colors all have zero shades passes the check, and the run then
returns without error and without issuing a single tap (every cell is
unmatched and skipped). -/
theorem paint_gate_checks_colors_not_shades :
    (∀ (cfg : AppConfig) (canvas_rect : Rect) (grid_w grid_h : ℕ)
      (get_pixel : ℕ → ℕ → RGB) (skip : ℕ → ℕ → Bool) (allow_bucket_fill : Bool)
      (sample : ℕ → ℕ → Point → RGB),
      grid_w ≠ 0 → grid_h ≠ 0 →
      (cfg.main_colors = [] ∨ cfg.shades_panel_button_pos = none ∨
        cfg.back_button_pos = none) →
      paint_grid cfg canvas_rect grid_w grid_h get_pixel skip allow_bucket_fill sample =
        { taps := [], progress := [], error := some configIncompleteMsg }) ∧
    (∀ (cfg : AppConfig) (canvas_rect : Rect) (grid_w grid_h : ℕ)
      (get_pixel : ℕ → ℕ → RGB) (skip : ℕ → ℕ → Bool) (allow_bucket_fill : Bool)
      (sample : ℕ → ℕ → Point → RGB) (m : MainColor) (ms : List MainColor)
      (panelPos backPos : Point),
      cfg.main_colors = m :: ms →
      cfg.shades_panel_button_pos = some panelPos →
      cfg.back_button_pos = some backPos →
      (∀ mc ∈ cfg.main_colors, mc.shades = []) →
      (paint_grid cfg canvas_rect grid_w grid_h get_pixel skip allow_bucket_fill
        sample).error = none ∧
      (paint_grid cfg canvas_rect grid_w grid_h get_pixel skip allow_bucket_fill
        sample).taps = []) := by
  constructor
  · intro cfg canvas_rect grid_w grid_h get_pixel skip allow_bucket_fill sample hgw hgh hbad
    unfold paint_grid
    rw [if_neg (by tauto)]
    rcases hbad with hbad | hbad | hbad
    · rw [hbad]
    · rw [hbad]
      cases hmc : cfg.main_colors with
      | nil => rfl
      | cons m ms => rfl
    · rw [hbad]
      cases hmc : cfg.main_colors with
      | nil => rfl
      | cons m ms =>
        cases hp : cfg.shades_panel_button_pos with
        | none => rfl
        | some p => rfl
  · intro cfg canvas_rect grid_w grid_h get_pixel skip allow_bucket_fill sample m ms
      panelPos backPos hmc hpanel hback hshades
    rw [paint_grid_no_shades cfg canvas_rect grid_w grid_h get_pixel skip
      allow_bucket_fill sample m ms panelPos backPos hmc hpanel hback hshades]
    exact ⟨rfl, rfl⟩

/-- Palette with no main colors at all (navigation buttons set). -/
def cNoColorsCfg : AppConfig :=
  { shades_panel_button_pos := some (10, 10), back_button_pos := some (20, 20) }

/-- Witness for C1 (amended): a concrete empty palette raises the
Configuration-incomplete error before any tap, and the concrete shade-less
palette returns cleanly with zero taps. -/
theorem paint_gate_checks_colors_not_shades_witness :
    paint_grid cNoColorsCfg (0, 0, 100, 100) 1 1
        (fun _ _ => (255, 255, 255)) (fun _ _ => false) true (fun _ _ _ => (0, 0, 0)) =
      { taps := [], progress := [], error := some configIncompleteMsg } ∧
    (paint_grid cShadelessCfg (0, 0, 100, 100) 2 2 (fun _ _ => (255, 255, 255))
      (fun _ _ => false) false (fun _ _ _ => (0, 0, 0))).error = none := by
  constructor
  · exact paint_gate_checks_colors_not_shades.1 _ _ 1 1 _ _ true _
      (by decide) (by decide) (Or.inl rfl)
  · exact (paint_gate_checks_colors_not_shades.2 _ _ 2 2 _ _ false _
      cShadelessMain [] (10, 10) (20, 20) rfl rfl rfl (by decide)).1

/-- Counterexample to C7 as stated: in a row-order run over a 1x1 grid whose
single cell has no palette match, the progress callback never fires for the
cell: the progress trace is empty, although the claim requires the cell to
be counted as done for progress. (By the matcher contract a cell can lack a
palette match only when the palette has zero shades.) -/
theorem no_match_no_progress_counterexample :
    (paint_grid cShadelessCfg (0, 0, 100, 100) 1 1 (fun _ _ => (255, 255, 255))
      (fun _ _ => false) true (fun _ _ _ => (0, 0, 0))).progress = [] := by
  decide

/-- C7 (amended): in the row-order scheduler a cell with no palette match is
skipped without a click AND without a progress event; in a run where every
cell is unmatched (a zero-shade palette, the only way a cell can be
unmatched), no tap is issued and the progress trace consists of exactly the
skip-masked cells, in scan order. -/
theorem unmatched_cells_skipped_without_progress :
    ∀ (cfg : AppConfig) (canvas_rect : Rect) (grid_w grid_h : ℕ)
      (get_pixel : ℕ → ℕ → RGB) (skip : ℕ → ℕ → Bool) (allow_bucket_fill : Bool)
      (sample : ℕ → ℕ → Point → RGB) (m : MainColor) (ms : List MainColor)
      (panelPos backPos : Point),
      cfg.main_colors = m :: ms →
      cfg.shades_panel_button_pos = some panelPos →
      cfg.back_button_pos = some backPos →
      (∀ mc ∈ cfg.main_colors, mc.shades = []) →
      (paint_grid cfg canvas_rect grid_w grid_h get_pixel skip allow_bucket_fill
        sample).taps = [] ∧
      (paint_grid cfg canvas_rect grid_w grid_h get_pixel skip allow_bucket_fill
        sample).progress =
        (List.range grid_h).flatMap fun y =>
          ((List.range grid_w).filter fun x => skip x y).map fun x => ((x, y) : Coord) := by
  intro cfg canvas_rect grid_w grid_h get_pixel skip allow_bucket_fill sample m ms
    panelPos backPos hmc hpanel hback hshades
  rw [paint_grid_no_shades cfg canvas_rect grid_w grid_h get_pixel skip
    allow_bucket_fill sample m ms panelPos backPos hmc hpanel hback hshades]
  exact ⟨rfl, rfl⟩

/-- Witness for C7 (amended): a concrete 2x1 grid with the left cell
skip-masked and a shade-less palette: no taps, and progress fires exactly
for the masked cell. -/
theorem unmatched_cells_skipped_without_progress_witness :
    (paint_grid cShadelessCfg (0, 0, 100, 100) 2 1 (fun _ _ => (255, 255, 255))
      (fun x _ => x = 0) false (fun _ _ _ => (0, 0, 0))).taps = [] ∧
    (paint_grid cShadelessCfg (0, 0, 100, 100) 2 1 (fun _ _ => (255, 255, 255))
      (fun x _ => x = 0) false (fun _ _ _ => (0, 0, 0))).progress = [(0, 0)] := by
  have h := unmatched_cells_skipped_without_progress cShadelessCfg (0, 0, 100, 100) 2 1
    (fun _ _ => (255, 255, 255)) (fun x _ => x = 0) false (fun _ _ _ => (0, 0, 0))
    cShadelessMain [] (10, 10) (20, 20) rfl rfl rfl (by decide)
  exact ⟨h.1, h.2.trans (by decide)⟩

/-- Counterexample to C8 as stated: a row-order run that selects a fresh
shade (target differs from the last-selected, which is none) taps the shade
button at (100,200) exactly ONCE, not twice: the full trace is main button,
panel button, one shade tap, the cell tap, final back tap. The deliberate
double-tap exists only in _select_shade, which the row scheduler's initial
pass does not use. -/
theorem single_tap_shade_select_counterexample :
    (paint_grid wCfg (0, 0, 100, 100) 1 1 (fun _ _ => (255, 0, 0)) (fun _ _ => false)
      false (fun _ _ _ => (255, 0, 0))).taps =
      [(300, 400), (10, 10), (100, 200), (50, 50), (20, 20)] ∧
    (paint_grid wCfg (0, 0, 100, 100) 1 1 (fun _ _ => (255, 0, 0)) (fun _ _ => false)
      false (fun _ _ _ => (255, 0, 0))).taps.count ((100, 200) : Point) = 1 := by
  decide

/-- C8 (amended): when the target shade differs from the last-selected one,
_select_shade (used by the color-grouped scheduler, the repaint loops and
the bucket-fill pre-pass) ends its tap sequence with a deliberate double-tap
of the shade button; the row-order scheduler's inline selection ends with a
SINGLE shade tap instead. -/
theorem shade_selection_tap_counts :
    (∀ (cfg : AppConfig) (main : MainColor) (shade : ShadeButton) (st : SelState)
      (panelPos backPos : Point),
      cfg.shades_panel_button_pos = some panelPos →
      cfg.back_button_pos = some backPos →
      (∀ ls, st.last_shade = some ls → shade.pos ≠ ls.pos) →
      ∃ st1 pre, select_shade cfg main shade st = .ok (st1, pre ++ [shade.pos, shade.pos]) ∧
        st1.last_shade = some shade) ∧
    (∀ (panelPos backPos : Point) (main : MainColor) (shade : ShadeButton) (st : SelState),
      (∀ ls, st.last_shade = some ls → shade.pos ≠ ls.pos) →
      ∃ pre, (rowInlineSelect panelPos backPos main shade st).2 = pre ++ [shade.pos] ∧
        (rowInlineSelect panelPos backPos main shade st).1.last_shade = some shade) := by
  constructor
  · intro cfg main shade st panelPos backPos hp hb hls
    obtain ⟨lm, ls, panel⟩ := st
    cases lm with
    | none =>
      unfold select_shade
      rw [hp, hb]
      exact ⟨_, _, rfl, rfl⟩
    | some l =>
      by_cases hn : main.name = l.name
      · cases ls with
        | none =>
          cases panel with
          | true =>
            refine ⟨⟨some l, some shade, true⟩, [], ?_, rfl⟩
            unfold select_shade
            rw [hp, hb]
            simp [hn]
          | false =>
            refine ⟨⟨some l, some shade, true⟩, [panelPos], ?_, rfl⟩
            unfold select_shade
            rw [hp, hb]
            simp [hn]
        | some s =>
          have hsp := hls s rfl
          cases panel with
          | true =>
            refine ⟨⟨some l, some shade, true⟩, [], ?_, rfl⟩
            unfold select_shade
            rw [hp, hb]
            simp [hn, hsp]
          | false =>
            refine ⟨⟨some l, some shade, true⟩, [panelPos], ?_, rfl⟩
            unfold select_shade
            rw [hp, hb]
            simp [hn, hsp]
      · refine ⟨⟨some main, some shade, true⟩, [backPos, main.pos, panelPos], ?_, rfl⟩
        unfold select_shade
        rw [hp, hb]
        simp [hn]
  · intro panelPos backPos main shade st hls
    obtain ⟨lm, ls, panel⟩ := st
    cases lm with
    | none =>
      unfold rowInlineSelect
      exact ⟨_, rfl, rfl⟩
    | some l =>
      by_cases hn : main.name = l.name
      · cases ls with
        | none =>
          cases panel with
          | true =>
            refine ⟨[], ?_, ?_⟩ <;>
              (unfold rowInlineSelect; simp [hn])
          | false =>
            refine ⟨[panelPos], ?_, ?_⟩ <;>
              (unfold rowInlineSelect; simp [hn])
        | some s =>
          have hsp := hls s rfl
          cases panel with
          | true =>
            refine ⟨[], ?_, ?_⟩ <;>
              (unfold rowInlineSelect; simp [hn, hsp])
          | false =>
            refine ⟨[panelPos], ?_, ?_⟩ <;>
              (unfold rowInlineSelect; simp [hn, hsp])
      · cases panel with
        | true =>
          refine ⟨[backPos, main.pos, panelPos], ?_, ?_⟩ <;>
            (unfold rowInlineSelect; simp [hn])
        | false =>
          refine ⟨[main.pos, panelPos], ?_, ?_⟩ <;>
            (unfold rowInlineSelect; simp [hn])

/-- Witness for C8 (amended): concrete double-tap through _select_shade and
concrete single tap through the row-order inline selection. -/
theorem shade_selection_tap_counts_witness :
    (∃ st1 pre, select_shade wCfg wMain1 wShadeR1 ⟨none, none, false⟩ =
      .ok (st1, pre ++ [wShadeR1.pos, wShadeR1.pos]) ∧ st1.last_shade = some wShadeR1) ∧
    (∃ pre, (rowInlineSelect (10, 10) (20, 20) wMain1 wShadeR1 ⟨none, none, false⟩).2 =
      pre ++ [wShadeR1.pos] ∧
      (rowInlineSelect (10, 10) (20, 20) wMain1 wShadeR1
        ⟨none, none, false⟩).1.last_shade = some wShadeR1) :=
  ⟨shade_selection_tap_counts.1 wCfg wMain1 wShadeR1 ⟨none, none, false⟩ (10, 10) (20, 20)
    rfl rfl (by intro ls hls; exact absurd hls (by simp)),
   shade_selection_tap_counts.2 (10, 10) (20, 20) wMain1 wShadeR1 ⟨none, none, false⟩
    (by intro ls hls; exact absurd hls (by simp))⟩

/-- Output of the bucket-click phase of the region fill planner. -/
structure BucketPhaseOut where
  filled_any : Bool
  bucketed : Finset Coord
  checked : List Coord
  taps : List Point

/-- The per-subregion loop of the region fill planner (_paint_grid_by_color
lines 1271-1293): click once inside each interior sub-component, spot-check
ONLY that clicked cell against the base color, and on a passing check add
the WHOLE sub-component to filled_cells. The accumulator carries filled_any,
filled_cells, the spot-checked cells, and the tap trace. -/
def bucketSubsGo (cfg : AppConfig) (canvas_rect : Rect) (grid_w grid_h : ℕ)
    (sample : Point → RGB) (base_rgb : Option RGB) :
    List (List Coord) → Bool → Finset Coord → List Coord → List Point →
    Bool × Finset Coord × List Coord × List Point
  | [], fa, fc, ck, tp => (fa, fc, ck, tp)
  | sub :: rest, fa, fc, ck, tp =>
    match sub with
    | [] => bucketSubsGo cfg canvas_rect grid_w grid_h sample base_rgb rest fa fc ck tp
    | f :: tl =>
      let pt := cell_center canvas_rect grid_w grid_h f.1 f.2
      match base_rgb with
      | none =>
        bucketSubsGo cfg canvas_rect grid_w grid_h sample base_rgb rest true
          (fc ∪ (f :: tl).toFinset) ck (tp ++ [pt])
      | some base =>
        if dist2 (sample pt) base ≤ verifyTol2 cfg then
          bucketSubsGo cfg canvas_rect grid_w grid_h sample base_rgb rest fa fc
            (ck ++ [f]) (tp ++ [pt])
        else
          bucketSubsGo cfg canvas_rect grid_w grid_h sample base_rgb rest true
            (fc ∪ (f :: tl).toFinset) (ck ++ [f]) (tp ++ [pt])

/-- The bucket-click phase of the region fill planner for one connected
component (_paint_grid_by_color lines 1261-1302): filled_cells starts as the
outline set (verified non-base earlier by _verify_outline_then_repair, not
re-checked here); each interior sub-component is bucket-clicked at its first
cell and spot-checked there only; the component joins the bucketed set only
if at least one sub-component filled. Boundary and interior sub-components
are computed by the flood fills at lines 1151-1259 and passed in. -/
def bucketPhase (cfg : AppConfig) (canvas_rect : Rect) (grid_w grid_h : ℕ)
    (boundary : List Coord) (interior_components : List (List Coord))
    (sample : Point → RGB) (base_rgb : Option RGB)
    (bucketToolPos paintToolPos : Point) : BucketPhaseOut :=
  let r := bucketSubsGo cfg canvas_rect grid_w grid_h sample base_rgb interior_components
    false boundary.toFinset [] [bucketToolPos]
  { filled_any := r.1,
    bucketed := if r.1 then r.2.1 else ∅,
    checked := r.2.2.1,
    taps := r.2.2.2 ++ [paintToolPos] }

lemma bucketSubsGo_mem (cfg : AppConfig) (canvas_rect : Rect) (grid_w grid_h : ℕ)
    (sample : Point → RGB) (base_rgb : Option RGB) :
    ∀ (subs : List (List Coord)) (fa : Bool) (fc : Finset Coord) (ck : List Coord)
      (tp : List Point) (c : Coord),
      c ∈ (bucketSubsGo cfg canvas_rect grid_w grid_h sample base_rgb subs fa fc ck tp).2.1 →
      c ∈ fc ∨
      ∃ f tl, (f :: tl) ∈ subs ∧ c ∈ f :: tl ∧
        (base_rgb = none ∨ ∀ base, base_rgb = some base →
          dist2 (sample (cell_center canvas_rect grid_w grid_h f.1 f.2)) base >
            verifyTol2 cfg) := by
  rcases base_rgb with _ | base
  · intro subs
    induction subs with
    | nil =>
      intro fa fc ck tp c hc
      exact Or.inl hc
    | cons sub rest ih =>
      intro fa fc ck tp c hc
      cases sub with
      | nil =>
        simp only [bucketSubsGo] at hc
        rcases ih _ _ _ _ c hc with h | ⟨f, tl, h1, h2, h3⟩
        · exact Or.inl h
        · exact Or.inr ⟨f, tl, List.mem_cons_of_mem _ h1, h2, h3⟩
      | cons f tl =>
        simp only [bucketSubsGo] at hc
        rcases ih _ _ _ _ c hc with h | ⟨g, tl2, h1, h2, h3⟩
        · rcases Finset.mem_union.mp h with h | h
          · exact Or.inl h
          · exact Or.inr ⟨f, tl, List.mem_cons_self _ _, List.mem_toFinset.mp h, Or.inl rfl⟩
        · exact Or.inr ⟨g, tl2, List.mem_cons_of_mem _ h1, h2, h3⟩
  · intro subs
    induction subs with
    | nil =>
      intro fa fc ck tp c hc
      exact Or.inl hc
    | cons sub rest ih =>
      intro fa fc ck tp c hc
      cases sub with
      | nil =>
        simp only [bucketSubsGo] at hc
        rcases ih _ _ _ _ c hc with h | ⟨f, tl, h1, h2, h3⟩
        · exact Or.inl h
        · exact Or.inr ⟨f, tl, List.mem_cons_of_mem _ h1, h2, h3⟩
      | cons f tl =>
        simp only [bucketSubsGo] at hc
        by_cases hd : dist2 (sample (cell_center canvas_rect grid_w grid_h f.1 f.2)) base ≤
            verifyTol2 cfg
        · rw [if_pos hd] at hc
          rcases ih _ _ _ _ c hc with h | ⟨g, tl2, h1, h2, h3⟩
          · exact Or.inl h
          · exact Or.inr ⟨g, tl2, List.mem_cons_of_mem _ h1, h2, h3⟩
        · rw [if_neg hd] at hc
          rcases ih _ _ _ _ c hc with h | ⟨g, tl2, h1, h2, h3⟩
          · rcases Finset.mem_union.mp h with h | h
            · exact Or.inl h
            · refine Or.inr ⟨f, tl, List.mem_cons_self _ _, List.mem_toFinset.mp h,
                Or.inr ?_⟩
              intro b hb
              injection hb with hb
              rw [← hb]
              omega
          · exact Or.inr ⟨g, tl2, List.mem_cons_of_mem _ h1, h2, h3⟩

/-- C9 (amended): every coordinate in the final bucketed set of a component
is an outline cell (verified non-base by the earlier outline verification,
not re-checked at acceptance) or belongs to an interior sub-component whose
FIRST cell — and only that cell — passed the base-color spot-check at the
moment the sub-component was accepted; sibling cells of a sub-component are
accepted without being sampled. -/
theorem region_fill_spot_checks_first_cell_only (cfg : AppConfig) (canvas_rect : Rect)
    (grid_w grid_h : ℕ) (boundary : List Coord) (interior_components : List (List Coord))
    (sample : Point → RGB) (base_rgb : Option RGB) (bucketToolPos paintToolPos : Point)
    (c : Coord)
    (hc : c ∈ (bucketPhase cfg canvas_rect grid_w grid_h boundary interior_components
      sample base_rgb bucketToolPos paintToolPos).bucketed) :
    c ∈ boundary ∨
    ∃ f tl, (f :: tl) ∈ interior_components ∧ c ∈ f :: tl ∧
      (base_rgb = none ∨ ∀ base, base_rgb = some base →
        dist2 (sample (cell_center canvas_rect grid_w grid_h f.1 f.2)) base >
          verifyTol2 cfg) := by
  unfold bucketPhase at hc
  simp only [] at hc
  by_cases hfa : (bucketSubsGo cfg canvas_rect grid_w grid_h sample base_rgb
      interior_components false boundary.toFinset [] [bucketToolPos]).1 = true
  · rw [if_pos hfa] at hc
    rcases bucketSubsGo_mem cfg canvas_rect grid_w grid_h sample base_rgb
      interior_components false boundary.toFinset [] [bucketToolPos] c hc with h | h
    · exact Or.inl (List.mem_toFinset.mp h)
    · exact Or.inr h
  · rw [if_neg hfa] at hc
    exact absurd hc (Finset.not_mem_empty c)

/-- Concrete data for the C9 counterexample: a 4x3 component on a 4x3 grid,
outline ring of 10 cells, one interior sub-component of two cells. -/
def c9Boundary : List Coord :=
  [(0, 0), (1, 0), (2, 0), (3, 0), (0, 1), (3, 1), (0, 2), (1, 2), (2, 2), (3, 2)]

def c9Subs : List (List Coord) := [[(1, 1), (2, 1)]]

def c9Base : RGB := (10, 20, 30)

/-- Sampler of the C9 counterexample: the clicked seed cell (1,1), at screen
point (15,15), reads far from base (the fill registered there); every other
point — including cell (2,1) at (25,15) — still reads exactly the base
color. -/
def c9Sample (p : Point) : RGB := if p = (15, 15) then (200, 200, 200) else c9Base

/-- Counterexample to C9 as stated: cell (2,1) ends up in the final bucketed
set although its sampled screen pixel reads exactly the base color (it would
have passed, not failed, the base-color tolerance check), because only the
sub-component seed (1,1) was spot-checked: the checked list is [(1,1)]. -/
theorem region_fill_unchecked_cell_counterexample :
    ((2, 1) : Coord) ∈ (bucketPhase wCfg (0, 0, 40, 30) 4 3 c9Boundary c9Subs c9Sample
      (some c9Base) (500, 500) (501, 500)).bucketed ∧
    dist2 (c9Sample (cell_center (0, 0, 40, 30) 4 3 2 1)) c9Base ≤ verifyTol2 wCfg ∧
    (bucketPhase wCfg (0, 0, 40, 30) 4 3 c9Boundary c9Subs c9Sample (some c9Base)
      (500, 500) (501, 500)).checked = [(1, 1)] := by
  refine ⟨by decide, by decide, by decide⟩

/-- Witness for C9 (amended): at the concrete counterexample input, the
bucketed cell (2,1) indeed lies in a sub-component whose first cell passed
the spot-check. -/
theorem region_fill_spot_checks_first_cell_only_witness :
    ((2, 1) : Coord) ∈ c9Boundary ∨
    ∃ f tl, (f :: tl) ∈ c9Subs ∧ ((2, 1) : Coord) ∈ f :: tl ∧
      ((some c9Base : Option RGB) = none ∨ ∀ base, (some c9Base : Option RGB) = some base →
        dist2 (c9Sample (cell_center (0, 0, 40, 30) 4 3 f.1 f.2)) base >
          verifyTol2 wCfg) :=
  region_fill_spot_checks_first_cell_only wCfg (0, 0, 40, 30) 4 3 c9Boundary c9Subs
    c9Sample (some c9Base) (500, 500) (501, 500) (2, 1) (by decide)
